import Mathlib

/-!
# BuildBoard early-start signup: a verification development

A shallow embedding of `backend/internal/controllers/early_start_controller.go`,
`backend/internal/services/email_service.go` and
`backend/internal/models/early_start.go`.

Modelling conventions.

* A Go `string` is a Lean `String`; `len s` is its UTF-8 byte size and the
  validator tag `len=6` counts runes (`String.length`).
* A Go `int` is an `Int`; where a sum can leave the 64-bit range it is wrapped
  (`wrapInt`).
* A `time.Time` is an `Int` (nanoseconds since the epoch), a `time.Duration`
  an `Int` of nanoseconds.  A handler reads the clock once per request
  (`Env.now`).
* The table `early_start_users` is a list of rows in primary-key order with
  the next value of the key sequence.  The outcome of the environment (random
  source, SMTP transport, database driver) is an input of each handler (`Env`).
* The library predicates the handlers call (`validator`'s `email` tag,
  `mail.ParseAddress`, `unicode.ToUpper` above ASCII) are parameters (`Lib`).
* A handler receives the decoded JSON body; a body that does not decode is
  answered like one that fails validation.
* The database returns what was written (timestamps included), compares emails
  and tokens exactly, and an update by primary key stamps `updated_at`.
-/

namespace BuildBoard

/-! ## Data model (`models/early_start.go`) -/

/-- Instants and durations, in nanoseconds. -/
abbrev Time := Int

/-- One byte of a buffer filled by `crypto/rand`. -/
abbrev Byte := Fin 256

/-- The row type `models.EarlyStartUser`. -/
structure EarlyStartUser where
  ID : Nat
  CreatedAt : Time
  UpdatedAt : Time
  Email : String
  FirstName : String
  LastName : String
  IPAddress : String
  OTPHash : String
  OTPExpiresAt : Option Time
  OTPVerifiedAt : Option Time
  OTPAttempts : Int
  OTPLastAttempt : Option Time
  IsVerified : Bool
  EmailSent : Bool
  EngagementToken : String
  ReadAt : Option Time
  ReadCount : Int
  LastReadAt : Option Time
  ReaderIP : String
  ReaderClient : String
  deriving DecidableEq, Repr

/-- The Go zero value of `models.EarlyStartUser` (what `First` leaves in its
destination when it finds nothing). -/
def zeroUser : EarlyStartUser :=
  { ID := 0, CreatedAt := 0, UpdatedAt := 0, Email := "", FirstName := "", LastName := "",
    IPAddress := "", OTPHash := "", OTPExpiresAt := none, OTPVerifiedAt := none,
    OTPAttempts := 0, OTPLastAttempt := none, IsVerified := false, EmailSent := false,
    EngagementToken := "", ReadAt := none, ReadCount := 0, LastReadAt := none,
    ReaderIP := "", ReaderClient := "" }

/-- The table: its rows in primary-key order and the next key of the sequence. -/
structure DB where
  rows : List EarlyStartUser
  nextID : Nat
  deriving DecidableEq, Repr

/-- The table before any request. -/
def DB.empty : DB := { rows := [], nextID := 1 }

/-- What the environment decides during one request. -/
structure Env where
  /-- Value of `time.Now()`. -/
  now : Time
  /-- Value of `c.ClientIP()`. -/
  clientIP : String
  /-- Value of the `User-Agent` header. -/
  userAgent : String
  /-- Result of `rand.Read` on the 6-byte buffer of `generateOTP`; `none` is an error. -/
  randOTP : Option (Fin 6 → Byte)
  /-- Result of `rand.Read` on the 32-byte buffer of `GenerateEngagementToken`. -/
  randToken : Option (Fin 32 → Byte)
  /-- Whether building or delivering the message over SMTP returns an error. -/
  smtpErr : Bool
  /-- Whether a query of this request fails in the driver (not `ErrRecordNotFound`). -/
  dbReadErr : Bool
  /-- Whether a write of this request is refused by the database. -/
  dbWriteErr : Bool

/-- Library functions the handlers call and whose tables are not part of the repository. -/
structure Lib where
  /-- The `email` tag of the request validator. -/
  validatorEmail : String → Bool
  /-- Whether `mail.ParseAddress` returns no error. -/
  parseAddress : String → Bool
  /-- The function `unicode.ToUpper` on runes above ASCII. -/
  unicodeUpper : Char → Char

/-- Result of `DB.Where(...).First(&dst)`. -/
inductive Lookup where
  | found (u : EarlyStartUser)
  | notFound
  | failed
  deriving DecidableEq, Repr

/-- The query `Where(cond).First(&dst)`: the matching row with the least primary key. -/
def DB.First (db : DB) (env : Env) (cond : EarlyStartUser → Bool) : Lookup :=
  if env.dbReadErr then Lookup.failed
  else match db.rows.find? cond with
    | some u => Lookup.found u
    | none => Lookup.notFound

/-- The write `Model(&u).Updates(map)`: applies `f` to the row whose key is `id` and
stamps `updated_at`; returns whether the write was accepted. -/
def DB.Updates (db : DB) (env : Env) (id : Nat) (f : EarlyStartUser → EarlyStartUser) :
    DB × Bool :=
  if env.dbWriteErr then (db, false)
  else ({ db with rows := db.rows.map fun r =>
            if r.ID = id then { f r with UpdatedAt := env.now } else r }, true)

/-- The write `Create(&user)`: appends the row under the next key. -/
def DB.Create (db : DB) (env : Env) (user : EarlyStartUser) : Option DB :=
  if env.dbWriteErr then none
  else some { rows := db.rows ++ [{ user with ID := db.nextID, CreatedAt := env.now,
                                              UpdatedAt := env.now }],
              nextID := db.nextID + 1 }

/-! ## Responses -/

/-- A value of a `gin.H` map. -/
inductive Value where
  | str (s : String)
  | bool (b : Bool)
  | time (t : Time)
  deriving DecidableEq, Repr

/-- A response body: `c.JSON` of a `gin.H`, or `c.Data` with a content type. -/
inductive Body where
  | json (h : List (String × Value))
  | data (contentType : String) (bytes : List Nat)
  deriving DecidableEq, Repr

/-- An HTTP response. -/
structure Response where
  status : Nat
  body : Body
  deriving DecidableEq, Repr

/-- A call of `SendOTPEmail` and whether it returned no error. -/
structure MailAttempt where
  To : String
  otp : String
  trackingToken : String
  delivered : Bool
  deriving DecidableEq, Repr

/-- What a handler leaves behind: the table, the response, the mails it tried to send. -/
structure Result where
  db : DB
  resp : Response
  mails : List MailAttempt
  deriving DecidableEq, Repr

/-- The response `c.JSON(status, gin.H{"error": msg})`. -/
def errorJSON (status : Nat) (msg : String) : Response :=
  { status := status, body := Body.json [("error", Value.str msg)] }

/-- The response `c.JSON(status, gin.H{"message": msg})`. -/
def messageJSON (status : Nat) (msg : String) : Response :=
  { status := status, body := Body.json [("message", Value.str msg)] }

/-! ## Constants -/

def maxOTPAttempts : Int := 5

/-- One `time.Second`. -/
def second : Time := 1000000000

/-- One `time.Minute`. -/
def minute : Time := 60 * second

def otpValidityPeriod : Time := 15 * minute

/-! ## Machine integers -/

/-- The value of a Go `int` (64 bits, two's complement) after an arithmetic operation whose
exact result is `x`: the result wraps around. -/
def wrapInt (x : Int) : Int :=
  (x + 9223372036854775808) % 18446744073709551616 - 9223372036854775808

/-! ## Strings (`strings.TrimSpace`, `strings.ToUpper`, `strings.TrimSuffix`, `len`) -/

/-- The builtin `len` of a Go string: its number of bytes. -/
def len (s : String) : Nat := s.utf8ByteSize

/-- The predicate `unicode.IsSpace`. -/
def isSpace (c : Char) : Bool :=
  let n := c.toNat
  (0x09 ≤ n && n ≤ 0x0D) || n == 0x20 || n == 0x85 || n == 0xA0 || n == 0x1680 ||
  (0x2000 ≤ n && n ≤ 0x200A) || n == 0x2028 || n == 0x2029 || n == 0x202F ||
  n == 0x205F || n == 0x3000

/-- The function `strings.TrimSpace`. -/
def TrimSpace (s : String) : String :=
  String.mk ((s.data.dropWhile isSpace).reverse.dropWhile isSpace).reverse

/-- The function `unicode.ToUpper`. -/
def toUpperRune (lib : Lib) (c : Char) : Char :=
  if c.toNat < 128 then
    (if 97 ≤ c.toNat ∧ c.toNat ≤ 122 then Char.ofNat (c.toNat - 32) else c)
  else lib.unicodeUpper c

/-- The function `strings.ToUpper`. -/
def ToUpper (lib : Lib) (s : String) : String :=
  String.mk (s.data.map (toUpperRune lib))

/-- The function `strings.TrimSuffix`. -/
def TrimSuffix (s suffix : String) : String :=
  if suffix.data.isSuffixOf s.data then String.mk (s.data.take (s.data.length - suffix.data.length))
  else s

/-! ## Code and token generation -/

/-- The alphabet of `generateOTP`. -/
def charset : String := "ABCDEFGHJKLMNPQRSTUVWXYZ23456789"

/-- The function `generateOTP`: one symbol of `charset` per random byte. -/
def generateOTP (rnd : Option (Fin 6 → Byte)) : Except String String :=
  match rnd with
  | none => Except.error "failed to generate random bytes"
  | some b =>
    Except.ok (String.mk (List.ofFn fun i : Fin 6 =>
      charset.data.getD ((b i).val % len charset) 'A'))

/-- The alphabet of `base64.URLEncoding`. -/
def encodeURL : String := "ABCDEFGHIJKLMNOPQRSTUVWXYZabcdefghijklmnopqrstuvwxyz0123456789-_"

/-- The symbol of a 6-bit value. -/
def encodeURLChar (n : Nat) : Char := encodeURL.data.getD n 'A'

/-- The method `base64.URLEncoding.EncodeToString` (padded with `=`). -/
def EncodeToString : List Nat → List Char
  | a :: b :: c :: rest =>
    encodeURLChar (a / 4) :: encodeURLChar ((a % 4) * 16 + b / 16) ::
      encodeURLChar ((b % 16) * 4 + c / 64) :: encodeURLChar (c % 64) :: EncodeToString rest
  | [a, b] =>
    [encodeURLChar (a / 4), encodeURLChar ((a % 4) * 16 + b / 16),
      encodeURLChar ((b % 16) * 4), '=']
  | [a] => [encodeURLChar (a / 4), encodeURLChar ((a % 4) * 16), '=', '=']
  | [] => []

/-- The function `services.GenerateEngagementToken`. -/
def GenerateEngagementToken (rnd : Option (Fin 32 → Byte)) : Except String String :=
  match rnd with
  | none => Except.error "failed to generate random token"
  | some b => Except.ok (String.mk (EncodeToString (List.ofFn fun i : Fin 32 => (b i).val)))

/-! ## Email service (`services/email_service.go`) -/

/-- The type `services.EmailService`: whether its SMTP client is set. -/
structure EmailService where
  hasClient : Bool
  deriving DecidableEq, Repr

/-- The fields of `config.Config` the email service reads. -/
structure Config where
  SMTPHost : String
  SMTPPort : Int
  SMTPUsername : String
  SMTPPassword : String
  FromEmail : String
  FromName : String
  BackendURL : String
  deriving DecidableEq, Repr

/-- The function `services.NewEmailService`: without SMTP credentials the service has no
client; `newClientErr` tells whether `mail.NewClient` returns an error. -/
def NewEmailService (cfg : Config) (newClientErr : Bool) : Except String EmailService :=
  if cfg.SMTPUsername == "" || cfg.SMTPPassword == "" then
    Except.ok { hasClient := false }
  else if newClientErr then Except.error "failed to create email client"
  else Except.ok { hasClient := true }

/-- The method `EmailService.SendEmail`: refuses without a client, else the transport
decides. -/
def EmailService.SendEmail (es : EmailService) (env : Env) : Except String Unit :=
  if !es.hasClient then Except.error "email service not configured"
  else if env.smtpErr then Except.error "failed to send email"
  else Except.ok ()

/-- The method `EmailService.SendOTPEmail`: composes the message and sends it. -/
def EmailService.SendOTPEmail (es : EmailService) (env : Env)
    (_email _otp _trackingToken : String) : Except String Unit :=
  es.SendEmail env

/-! ## Controller (`controllers/early_start_controller.go`) -/

/-- The type `EarlyStartController`; the table is passed to each handler. -/
structure EarlyStartController where
  EmailService : Option EmailService
  deriving DecidableEq, Repr

structure signupRequest where
  Email : String
  FirstName : String
  LastName : String
  deriving DecidableEq, Repr

structure verifyOTPRequest where
  Email : String
  OTP : String
  deriving DecidableEq, Repr

/-- The binding tags of `signupRequest`: `email` is `required,email`. -/
def bindSignup (lib : Lib) (req : signupRequest) : Bool :=
  req.Email != "" && lib.validatorEmail req.Email

/-- The binding tags of `verifyOTPRequest`: `email` is `required,email`, `otp` is
`required,len=6` (a count of runes). -/
def bindVerifyOTP (lib : Lib) (req : verifyOTPRequest) : Bool :=
  (req.Email != "" && lib.validatorEmail req.Email) && (req.OTP != "" && req.OTP.length == 6)

/-- The function `validateEmailFormat`: whether it returns no error. -/
def validateEmailFormat (lib : Lib) (email : String) : Bool := lib.parseAddress email

def serviceUnavailable : Response := errorJSON 500 "Service temporarily unavailable"

/-- The handler `EarlyStartController.Signup`. -/
def Signup (lib : Lib) (e : EarlyStartController) (env : Env) (db : DB)
    (req : signupRequest) : Result :=
  if !bindSignup lib req then ⟨db, errorJSON 400 "Invalid request", []⟩
  else if !validateEmailFormat lib req.Email then
    ⟨db, errorJSON 400 "Invalid email address", []⟩
  else
    -- Check if email already exists
    let err := db.First env (fun u => u.Email == req.Email)
    let existing : EarlyStartUser := match err with
      | Lookup.found u => u
      | _ => zeroUser
    let early : Option Response := match err with
      | Lookup.found _ =>
        if existing.IsVerified then
          some (messageJSON 200 "If this email is valid, a verification code has been sent")
        else if (match existing.OTPLastAttempt with
                 | some t => decide (env.now - t < 1 * minute)
                 | none => false) then
          some (errorJSON 429 "Please wait before requesting a new code")
        else none
      | Lookup.notFound => none
      | Lookup.failed => some serviceUnavailable
    match early with
    | some r => ⟨db, r, []⟩
    | none =>
      -- Generate OTP
      match generateOTP env.randOTP with
      | Except.error _ => ⟨db, serviceUnavailable, []⟩
      | Except.ok otp =>
        let otpHash := otp
        let clientIP := env.clientIP
        match GenerateEngagementToken env.randToken with
        | Except.error _ => ⟨db, serviceUnavailable, []⟩
        | Except.ok engagementToken =>
          -- Send OTP email
          let sent : Option Bool := match e.EmailService with
            | some es =>
              (match es.SendOTPEmail env req.Email otp engagementToken with
               | Except.ok _ => some true
               | Except.error _ => some false)
            | none => none
          let emailSent := sent.getD false
          let mails : List MailAttempt := match sent with
            | some d => [⟨req.Email, otp, engagementToken, d⟩]
            | none => []
          let expiresAt := env.now + otpValidityPeriod
          let now := env.now
          let ok := messageJSON 200
            "If this email is valid, a verification code has been sent. Please check your email."
          if existing.ID ≠ 0 then
            -- Update existing record with new OTP
            ⟨(db.Updates env existing.ID fun u =>
                { u with FirstName := req.FirstName, LastName := req.LastName,
                         OTPHash := otpHash, OTPExpiresAt := some expiresAt,
                         OTPAttempts := 0, OTPLastAttempt := some now,
                         EmailSent := emailSent, EngagementToken := engagementToken,
                         ReadCount := 0, ReadAt := none, LastReadAt := none,
                         ReaderIP := "", ReaderClient := "" }).1, ok, mails⟩
          else
            -- Create new early start user record
            match db.Create env
                { zeroUser with Email := req.Email, FirstName := req.FirstName,
                                LastName := req.LastName, EmailSent := emailSent,
                                IPAddress := clientIP, OTPHash := otpHash,
                                OTPExpiresAt := some expiresAt, OTPAttempts := 0,
                                OTPLastAttempt := some now, IsVerified := false,
                                EngagementToken := engagementToken } with
            | none => ⟨db, serviceUnavailable, mails⟩
            | some db1 => ⟨db1, ok, mails⟩

/-- The handler `EarlyStartController.VerifyOTP`. -/
def VerifyOTP (lib : Lib) (env : Env) (db : DB) (req : verifyOTPRequest) : Result :=
  if !bindVerifyOTP lib req then ⟨db, errorJSON 400 "Invalid request", []⟩
  else
    -- Normalize OTP to uppercase
    let otp := ToUpper lib (TrimSpace req.OTP)
    if len otp ≠ 6 then ⟨db, errorJSON 400 "Invalid verification code", []⟩
    else
      match db.First env (fun u => u.Email == req.Email) with
      | Lookup.notFound => ⟨db, errorJSON 400 "Invalid verification code", []⟩
      | Lookup.failed => ⟨db, errorJSON 400 "Invalid verification code", []⟩
      | Lookup.found user =>
        if user.IsVerified then
          ⟨db, ⟨200, Body.json [("message", Value.str "Email already verified"),
                               ("isVerified", Value.bool true)]⟩, []⟩
        else if (match user.OTPExpiresAt with
                 | none => true
                 | some t => decide (env.now > t)) then
          ⟨db, errorJSON 400 "Verification code has expired. Please request a new one.", []⟩
        else if user.OTPAttempts ≥ maxOTPAttempts then
          ⟨db, errorJSON 429 "Too many failed attempts. Please request a new code.", []⟩
        else if otp ≠ user.OTPHash then
          -- Increment failed attempts (below `maxOTPAttempts` here, so the sum does not wrap)
          let now := env.now
          ⟨(db.Updates env user.ID fun u =>
              { u with OTPAttempts := user.OTPAttempts + 1, OTPLastAttempt := some now }).1,
            errorJSON 400 "Invalid verification code", []⟩
        else
          -- OTP is valid - mark as verified
          let verifiedAt := env.now
          match db.Updates env user.ID fun u =>
              { u with IsVerified := true, OTPVerifiedAt := some verifiedAt, OTPHash := "",
                       OTPExpiresAt := none, OTPAttempts := 0, OTPLastAttempt := none } with
          | (_, false) => ⟨db, serviceUnavailable, []⟩
          | (db1, true) =>
            ⟨db1, ⟨200, Body.json [("message", Value.str "Email verified successfully!"),
                                  ("email", Value.str user.Email),
                                  ("isVerified", Value.bool true),
                                  ("otpVerifiedAt", Value.time verifiedAt)]⟩, []⟩

/-- The 64 bytes of the 1x1 transparent PNG. -/
def pixel : List Nat :=
  [0x89, 0x50, 0x4E, 0x47, 0x0D, 0x0A, 0x1A, 0x0A,
   0x00, 0x00, 0x00, 0x0D, 0x49, 0x48, 0x44, 0x52,
   0x00, 0x00, 0x00, 0x01, 0x00, 0x00, 0x00, 0x01,
   0x08, 0x06, 0x00, 0x00, 0x00, 0x1F, 0x15, 0xC4,
   0x89, 0x00, 0x00, 0x00, 0x0A, 0x49, 0x44, 0x41,
   0x54, 0x78, 0x9C, 0x63, 0x00, 0x01, 0x00, 0x00,
   0x05, 0x00, 0x01, 0x0D, 0x0A, 0x2D, 0xB4, 0x00,
   0x00, 0x00, 0x00, 0x49, 0x45, 0x4E, 0x44, 0xAE]

/-- The handler `EarlyStartController.TrackEngagement`. -/
def TrackEngagement (env : Env) (db : DB) (filename : String) : Result :=
  -- Extract token from filename (remove .png extension)
  let token := TrimSuffix filename ".png"
  match db.First env (fun u => u.EngagementToken == token) with
  | Lookup.found user =>
    -- Update engagement tracking
    let now := env.now
    ⟨(db.Updates env user.ID fun u =>
        if user.ReadAt = none then
          { u with ReadCount := wrapInt (user.ReadCount + 1), LastReadAt := some now,
                   ReadAt := some now, ReaderIP := env.clientIP,
                   ReaderClient := env.userAgent }
        else
          { u with ReadCount := wrapInt (user.ReadCount + 1), LastReadAt := some now }).1,
      -- Return 1x1 transparent PNG pixel
      ⟨200, Body.data "image/png"
        [0x89, 0x50, 0x4E, 0x47, 0x0D, 0x0A, 0x1A, 0x0A,
         0x00, 0x00, 0x00, 0x0D, 0x49, 0x48, 0x44, 0x52,
         0x00, 0x00, 0x00, 0x01, 0x00, 0x00, 0x00, 0x01,
         0x08, 0x06, 0x00, 0x00, 0x00, 0x1F, 0x15, 0xC4,
         0x89, 0x00, 0x00, 0x00, 0x0A, 0x49, 0x44, 0x41,
         0x54, 0x78, 0x9C, 0x63, 0x00, 0x01, 0x00, 0x00,
         0x05, 0x00, 0x01, 0x0D, 0x0A, 0x2D, 0xB4, 0x00,
         0x00, 0x00, 0x00, 0x49, 0x45, 0x4E, 0x44, 0xAE]⟩, []⟩
  | _ =>
    -- Return 1x1 transparent pixel even if token not found
    ⟨db, ⟨200, Body.data "image/png"
        [0x89, 0x50, 0x4E, 0x47, 0x0D, 0x0A, 0x1A, 0x0A,
         0x00, 0x00, 0x00, 0x0D, 0x49, 0x48, 0x44, 0x52,
         0x00, 0x00, 0x00, 0x01, 0x00, 0x00, 0x00, 0x01,
         0x08, 0x06, 0x00, 0x00, 0x00, 0x1F, 0x15, 0xC4,
         0x89, 0x00, 0x00, 0x00, 0x0A, 0x49, 0x44, 0x41,
         0x54, 0x78, 0x9C, 0x63, 0x00, 0x01, 0x00, 0x00,
         0x05, 0x00, 0x01, 0x0D, 0x0A, 0x2D, 0xB4, 0x00,
         0x00, 0x00, 0x00, 0x49, 0x45, 0x4E, 0x44, 0xAE]⟩, []⟩

/-! ## The service as a transition system -/

/-- One request to the service. -/
inductive Call where
  | signup (env : Env) (req : signupRequest)
  | verify (env : Env) (req : verifyOTPRequest)
  | track (env : Env) (filename : String)

/-- The effect of one request on the table. -/
def step (lib : Lib) (e : EarlyStartController) (db : DB) : Call → Result
  | Call.signup env req => Signup lib e env db req
  | Call.verify env req => VerifyOTP lib env db req
  | Call.track env filename => TrackEngagement env db filename

/-- The table after a sequence of requests. -/
def run (lib : Lib) (e : EarlyStartController) (db : DB) : List Call → DB
  | [] => db
  | c :: cs => run lib e (step lib e db c).db cs

/-- The tables the service can reach from the empty one. -/
def Reachable (lib : Lib) (e : EarlyStartController) (db : DB) : Prop :=
  ∃ cs : List Call, run lib e DB.empty cs = db

/-! ## Auxiliary definitions for the statements -/

/-- The query by email of `Signup` and `VerifyOTP`, on the rows. -/
def DB.byEmail (db : DB) (email : String) : Option EarlyStartUser :=
  db.rows.find? (fun u => u.Email == email)

/-- The failed-attempt update of `VerifyOTP`. -/
def markFailed (user : EarlyStartUser) (now : Time) (u : EarlyStartUser) : EarlyStartUser :=
  { u with OTPAttempts := user.OTPAttempts + 1, OTPLastAttempt := some now }

def alreadyVerified : Response :=
  ⟨200, Body.json [("message", Value.str "Email already verified"),
                   ("isVerified", Value.bool true)]⟩

def codeExpired : Response :=
  errorJSON 400 "Verification code has expired. Please request a new one."

def tooManyAttempts : Response :=
  errorJSON 429 "Too many failed attempts. Please request a new code."

def invalidCode : Response := errorJSON 400 "Invalid verification code"

def verifiedOK (email : String) (at_ : Time) : Response :=
  ⟨200, Body.json [("message", Value.str "Email verified successfully!"),
                   ("email", Value.str email),
                   ("isVerified", Value.bool true),
                   ("otpVerifiedAt", Value.time at_)]⟩

/-- The success update of `VerifyOTP`. -/
def markVerified (now : Time) (u : EarlyStartUser) : EarlyStartUser :=
  { u with IsVerified := true, OTPVerifiedAt := some now, OTPHash := "",
           OTPExpiresAt := none, OTPAttempts := 0, OTPLastAttempt := none }

/-- Outcome of the send step of `Signup`: `none` without an email service, else whether
`SendOTPEmail` returned no error. -/
def sendOutcome (e : EarlyStartController) (env : Env) (email otp tok : String) : Option Bool :=
  match e.EmailService with
  | some es =>
    (match es.SendOTPEmail env email otp tok with
     | Except.ok _ => some true
     | Except.error _ => some false)
  | none => none

/-- The mails `Signup` tries to send when it issues a code. -/
def signupMails (e : EarlyStartController) (env : Env) (email otp tok : String) :
    List MailAttempt :=
  match sendOutcome e env email otp tok with
  | some d => [⟨email, otp, tok, d⟩]
  | none => []

/-- The update `Signup` applies to an existing unverified row. -/
def refresh (req : signupRequest) (otp tok : String) (sent : Bool) (now : Time)
    (u : EarlyStartUser) : EarlyStartUser :=
  { u with FirstName := req.FirstName, LastName := req.LastName,
           OTPHash := otp, OTPExpiresAt := some (now + otpValidityPeriod),
           OTPAttempts := 0, OTPLastAttempt := some now,
           EmailSent := sent, EngagementToken := tok,
           ReadCount := 0, ReadAt := none, LastReadAt := none,
           ReaderIP := "", ReaderClient := "" }

/-- The row `Signup` creates for a new email, before the database assigns its key. -/
def freshUser (req : signupRequest) (otp tok : String) (sent : Bool) (env : Env) :
    EarlyStartUser :=
  { zeroUser with Email := req.Email, FirstName := req.FirstName,
                  LastName := req.LastName, EmailSent := sent,
                  IPAddress := env.clientIP, OTPHash := otp,
                  OTPExpiresAt := some (env.now + otpValidityPeriod), OTPAttempts := 0,
                  OTPLastAttempt := some env.now, IsVerified := false,
                  EngagementToken := tok }

def signupOK : Response :=
  messageJSON 200
    "If this email is valid, a verification code has been sent. Please check your email."

def signupVerifiedOK : Response :=
  messageJSON 200 "If this email is valid, a verification code has been sent"

def rateLimited : Response := errorJSON 429 "Please wait before requesting a new code"

/-- Whether a request passes the input checks of `Signup`. -/
def validSignup (lib : Lib) (req : signupRequest) : Bool :=
  bindSignup lib req && validateEmailFormat lib req.Email

/-- The cooldown test of `Signup` does not hold for the row. -/
def pastCooldown (existing : EarlyStartUser) (now : Time) : Prop :=
  existing.OTPLastAttempt = none ∨ ∃ t, existing.OTPLastAttempt = some t ∧ 1 * minute ≤ now - t

/-- Well-formed tables: primary keys are distinct, positive and below the sequence, and
emails are distinct (the unique index on `email`). -/
def DB.WF (db : DB) : Prop :=
  (db.rows.map fun r => r.ID).Nodup ∧ (db.rows.map fun r => r.Email).Nodup ∧
    0 < db.nextID ∧ ∀ r ∈ db.rows, 0 < r.ID ∧ r.ID < db.nextID

instance (db : DB) : Decidable db.WF := by unfold DB.WF; infer_instance

/-- The stamp `updated_at` of an update. -/
def stamp (now : Time) (u : EarlyStartUser) : EarlyStartUser := { u with UpdatedAt := now }

/-- The table with the row `user` replaced by `new`. -/
def DB.replace (db : DB) (user new : EarlyStartUser) : DB :=
  { db with rows := db.rows.map fun r => if r = user then new else r }

/-- The update of `TrackEngagement`. -/
def markOpen (user : EarlyStartUser) (env : Env) (u : EarlyStartUser) : EarlyStartUser :=
  if user.ReadAt = none then
    { u with ReadCount := wrapInt (user.ReadCount + 1), LastReadAt := some env.now,
             ReadAt := some env.now, ReaderIP := env.clientIP,
             ReaderClient := env.userAgent }
  else
    { u with ReadCount := wrapInt (user.ReadCount + 1), LastReadAt := some env.now }

/-- The row a call looks up. -/
def Call.targets : Call → EarlyStartUser → Prop
  | Call.signup _ req, u => u.Email = req.Email
  | Call.verify _ req, u => u.Email = req.Email
  | Call.track _ filename, u => u.EngagementToken = TrimSuffix filename ".png"

/-- The call is neither for the email nor for the tracking token. -/
def Call.avoids (email tok : String) : Call → Prop
  | Call.signup _ req => req.Email ≠ email
  | Call.verify _ req => req.Email ≠ email
  | Call.track _ filename => TrimSuffix filename ".png" ≠ tok

/-- The table after an accepted `Create`. -/
def DB.insert (db : DB) (env : Env) (user : EarlyStartUser) : DB :=
  { rows := db.rows ++ [{ user with ID := db.nextID, CreatedAt := env.now,
                                    UpdatedAt := env.now }],
    nextID := db.nextID + 1 }

/-- How a request may rewrite the row it looks up: an unverified row stays unverified, or
the row becomes verified with its code cleared, or its verification fields are kept. -/
def RowChange (user new : EarlyStartUser) : Prop :=
  (user.IsVerified = false ∧ new.IsVerified = false) ∨
  (new.IsVerified = true ∧ new.OTPHash = "" ∧ new.OTPExpiresAt = none ∧ new.OTPAttempts = 0) ∨
  (new.IsVerified = user.IsVerified ∧ new.OTPHash = user.OTPHash ∧
    new.OTPExpiresAt = user.OTPExpiresAt ∧ new.OTPAttempts = user.OTPAttempts)

/-- How a request may change the table: not at all, by rewriting the row it looks up, or
by inserting an unverified row for an email that has none. -/
def Change (db : DB) (c : Call) (db1 : DB) : Prop :=
  db1 = db ∨
  (∃ user new, user ∈ db.rows ∧ c.targets user ∧ new.ID = user.ID ∧ new.Email = user.Email ∧
    RowChange user new ∧ db1 = db.replace user new) ∨
  (∃ env new, db.byEmail new.Email = none ∧ new.IsVerified = false ∧ db1 = db.insert env new)

/-- A library instance for the worked examples: every address is accepted and the
case table is the identity above ASCII. -/
def sampleLib : Lib := { validatorEmail := fun _ => true, parseAddress := fun _ => true,
                         unicodeUpper := fun c => c }

/-- An environment for the worked examples: everything works at time `now`. -/
def sampleEnv (now : Time) : Env :=
  { now := now, clientIP := "203.0.113.7", userAgent := "Mail", randOTP := some fun _ => 0,
    randToken := some fun _ => 0, smtpErr := false, dbReadErr := false, dbWriteErr := false }

/-- A controller with a configured email service. -/
def sampleCtl : EarlyStartController := { EmailService := some { hasClient := true } }

/-- An unverified row with code `AB3D9X` issued at time 0. -/
def sampleUser : EarlyStartUser :=
  { zeroUser with ID := 1, Email := "a@x.com", OTPHash := "AB3D9X",
                  OTPExpiresAt := some 900000000000, OTPLastAttempt := some 0,
                  EngagementToken := "tok" }

/-- A table holding `sampleUser` only. -/
def sampleDB : DB := { rows := [sampleUser], nextID := 2 }

/-- The table and the responses after a sequence of `VerifyOTP` requests. -/
def verifyAll (lib : Lib) (db : DB) : List (Env × verifyOTPRequest) → DB × List Response
  | [] => (db, [])
  | c :: cs =>
    ((verifyAll lib (VerifyOTP lib c.1 db c.2).db cs).1,
      (VerifyOTP lib c.1 db c.2).resp :: (verifyAll lib (VerifyOTP lib c.1 db c.2).db cs).2)

/-- A verified row for `v@x.com`. -/
def sampleVerified : EarlyStartUser :=
  { zeroUser with ID := 1, Email := "v@x.com", IsVerified := true, OTPVerifiedAt := some 5,
                  EngagementToken := "tok" }

/-- Five requests with the wrong code `ZZZZZZ` for `a@x.com`, at times 1 to 5. -/
def sampleWrongCalls : List (Env × verifyOTPRequest) :=
  [(sampleEnv 1, ⟨"a@x.com", "ZZZZZZ"⟩), (sampleEnv 2, ⟨"a@x.com", "ZZZZZZ"⟩),
   (sampleEnv 3, ⟨"a@x.com", "ZZZZZZ"⟩), (sampleEnv 4, ⟨"a@x.com", "ZZZZZZ"⟩),
   (sampleEnv 5, ⟨"a@x.com", "ZZZZZZ"⟩)]

/-- The fields `Signup` writes when it issues the code `otp` and the token `tok` at time
`now`, on the row `r`. -/
def Issued (req : signupRequest) (otp tok : String) (sent : Bool) (now : Time)
    (r : EarlyStartUser) : Prop :=
  r.Email = req.Email ∧ r.OTPHash = otp ∧ r.OTPExpiresAt = some (now + otpValidityPeriod) ∧
  r.OTPAttempts = 0 ∧ r.OTPLastAttempt = some now ∧ r.IsVerified = false ∧
  r.EmailSent = sent ∧ r.EngagementToken = tok ∧ r.ReadCount = 0 ∧ r.ReadAt = none ∧
  r.LastReadAt = none ∧ r.ReaderIP = "" ∧ r.ReaderClient = ""

/-- An environment whose random source yields the code `BBBBBB`, at time `now`. -/
def sampleEnvB (now : Time) : Env :=
  { sampleEnv now with randOTP := some fun _ => 1 }

/-- The invariant of verified rows: the code is cleared, there is no expiry and the attempt
counter is zero. -/
def VerifiedCleared (db : DB) : Prop :=
  ∀ r ∈ db.rows, r.IsVerified = true → r.OTPHash = "" ∧ r.OTPExpiresAt = none ∧ r.OTPAttempts = 0

/-- Requests for another email and another tracking token, between a signup and its
verification. -/
def sampleOtherCalls : List Call :=
  [Call.signup (sampleEnvB 10) ⟨"b@x.com", "", ""⟩,
   Call.verify (sampleEnv 20) ⟨"b@x.com", "BBBBBB"⟩,
   Call.track (sampleEnv 30) "other.png"]

/-- A signup of `a@x.com` at time 0 followed by its verification at time 5. -/
def sampleVerifyCalls : List Call :=
  [Call.signup (sampleEnv 0) ⟨"a@x.com", "", ""⟩,
   Call.verify (sampleEnv 5) ⟨"a@x.com", "AAAAAA"⟩]

/-- Later requests for the verified email: a signup, a wrong code and an open. -/
def sampleLaterCalls : List Call :=
  [Call.signup (sampleEnvB 100000000000) ⟨"a@x.com", "", ""⟩,
   Call.verify (sampleEnv 100000000001) ⟨"a@x.com", "ZZZZZZ"⟩,
   Call.track (sampleEnv 100000000002) "AAAAAAAAAAAAAAAAAAAAAAAAAAAAAAAAAAAAAAAAAAA=.png"]

/-- A configuration without SMTP credentials. -/
def sampleConfig : Config :=
  { SMTPHost := "smtp.gmail.com", SMTPPort := 587, SMTPUsername := "", SMTPPassword := "",
    FromEmail := "", FromName := "BuildBoard", BackendURL := "" }

/-- The controller built from `sampleConfig`: a service without client. -/
def sampleCtlNoClient : EarlyStartController := { EmailService := some { hasClient := false } }

/-- A row like `sampleUser` whose open count is the largest 64-bit integer. -/
def sampleUserMaxReads : EarlyStartUser :=
  { sampleUser with ReadCount := 9223372036854775807, ReadAt := some 10,
                    LastReadAt := some 20 }

instance : DecidableEq (Except String String) := fun a b =>
  match a, b with
  | Except.ok x, Except.ok y =>
    if h : x = y then isTrue (by rw [h]) else isFalse (fun hc => h (Except.ok.inj hc))
  | Except.error x, Except.error y =>
    if h : x = y then isTrue (by rw [h]) else isFalse (fun hc => h (Except.error.inj hc))
  | Except.ok _, Except.error _ => isFalse (fun hc => by cases hc)
  | Except.error _, Except.ok _ => isFalse (fun hc => by cases hc)

/-- The symbol at position `i` of the code a call of `generateOTP` returned, if any. -/
def symbolAt (r : Except String String) (i : Fin 6) : Option Char :=
  match r with
  | Except.ok t => t.data.get? i.val
  | Except.error _ => none

/-! ## Lemmas -/

theorem charset_data_length : charset.data.length = 32 := by decide

theorem len_charset : len charset = 32 := by decide

/-- Every symbol of the alphabet is an ASCII character of one byte that is neither a
space nor a lower-case letter. -/
theorem charset_symbol_plain :
    ∀ c ∈ charset.data, isSpace c = false ∧ c.toNat < 128 ∧
      ¬ (97 ≤ c.toNat ∧ c.toNat ≤ 122) ∧ c.utf8Size = 1 := by decide

theorem charset_getD_mem (n : Nat) : charset.data.getD (n % len charset) 'A' ∈ charset.data := by
  have h : n % len charset < charset.data.length := by
    rw [len_charset, charset_data_length]; exact Nat.mod_lt _ (by decide)
  rw [List.getD_eq_getElem _ _ h]
  exact List.getElem_mem h

/-- The characters of a generated code. -/
theorem generateOTP_data (b : Fin 6 → Byte) (c : String)
    (h : generateOTP (some b) = Except.ok c) :
    c.data = List.ofFn fun i : Fin 6 => charset.data.getD ((b i).val % len charset) 'A' := by
  simp only [generateOTP, Except.ok.injEq] at h
  rw [← h]

theorem generateOTP_mem_charset (b : Fin 6 → Byte) (c : String)
    (h : generateOTP (some b) = Except.ok c) : ∀ x ∈ c.data, x ∈ charset.data := by
  intro x hx
  rw [generateOTP_data b c h, List.mem_ofFn] at hx
  obtain ⟨i, rfl⟩ := hx
  exact charset_getD_mem _

theorem generateOTP_length (b : Fin 6 → Byte) (c : String)
    (h : generateOTP (some b) = Except.ok c) : c.length = 6 := by
  show c.data.length = 6
  rw [generateOTP_data b c h, List.length_ofFn]

theorem utf8Len_of_all_one (l : List Char) (h : ∀ x ∈ l, x.utf8Size = 1) :
    String.utf8Len l = l.length := by
  induction l with
  | nil => rfl
  | cons a t ih =>
    rw [String.utf8Len_cons, ih (fun x hx => h x (List.mem_cons_of_mem _ hx)),
      h a (List.mem_cons_self _ _), List.length_cons]

theorem dropWhile_of_all_false {α : Type} (p : α → Bool) (l : List α)
    (h : ∀ x ∈ l, p x = false) : l.dropWhile p = l := by
  cases l with
  | nil => rfl
  | cons a t =>
    have := h a (List.mem_cons_self _ _)
    simp [List.dropWhile_cons, this]

theorem TrimSpace_of_no_space (s : String) (h : ∀ x ∈ s.data, isSpace x = false) :
    TrimSpace s = s := by
  unfold TrimSpace
  rw [dropWhile_of_all_false _ _ h,
    dropWhile_of_all_false _ _ (fun x hx => h x (List.mem_reverse.mp hx)), List.reverse_reverse]

theorem ToUpper_of_plain (lib : Lib) (s : String)
    (h : ∀ x ∈ s.data, x.toNat < 128 ∧ ¬ (97 ≤ x.toNat ∧ x.toNat ≤ 122)) :
    ToUpper lib s = s := by
  unfold ToUpper
  have : s.data.map (toUpperRune lib) = s.data := by
    conv_rhs => rw [← List.map_id s.data]
    apply List.map_congr_left
    intro x hx
    obtain ⟨h1, h2⟩ := h x hx
    simp [toUpperRune, h1, h2]
  rw [this]

/-- A generated code is already in normal form and has six bytes. -/
theorem generateOTP_normal (lib : Lib) (b : Fin 6 → Byte) (c : String)
    (h : generateOTP (some b) = Except.ok c) :
    ToUpper lib (TrimSpace c) = c ∧ len c = 6 ∧ c.length = 6 := by
  have hm := generateOTP_mem_charset b c h
  have hp := fun x hx => charset_symbol_plain x (hm x hx)
  refine ⟨?_, ?_, generateOTP_length b c h⟩
  · rw [TrimSpace_of_no_space c (fun x hx => (hp x hx).1)]
    exact ToUpper_of_plain lib c (fun x hx => ⟨(hp x hx).2.1, (hp x hx).2.2.1⟩)
  · show c.utf8ByteSize = 6
    have : c.utf8ByteSize = String.utf8Len c.data := rfl
    rw [this, utf8Len_of_all_one _ (fun x hx => (hp x hx).2.2.2)]
    exact generateOTP_length b c h

theorem VerifyOTP_bad_binding (lib : Lib) (env : Env) (db : DB) (req : verifyOTPRequest)
    (hb : bindVerifyOTP lib req = false) :
    VerifyOTP lib env db req = ⟨db, errorJSON 400 "Invalid request", []⟩ := by
  simp [VerifyOTP, hb]

theorem VerifyOTP_bad_length (lib : Lib) (env : Env) (db : DB) (req : verifyOTPRequest)
    (hb : bindVerifyOTP lib req = true) (hl : len (ToUpper lib (TrimSpace req.OTP)) ≠ 6) :
    VerifyOTP lib env db req = ⟨db, invalidCode, []⟩ := by
  simp [VerifyOTP, hb, hl, invalidCode]

theorem VerifyOTP_not_found (lib : Lib) (env : Env) (db : DB) (req : verifyOTPRequest)
    (hb : bindVerifyOTP lib req = true)
    (hf : env.dbReadErr = true ∨ db.byEmail req.Email = none) :
    VerifyOTP lib env db req = ⟨db, invalidCode, []⟩ := by
  unfold DB.byEmail at hf
  by_cases hl : len (ToUpper lib (TrimSpace req.OTP)) = 6
  · rcases hf with hf | hf
    · simp [VerifyOTP, hb, hl, DB.First, hf, invalidCode]
    · by_cases hr : env.dbReadErr = true
      · simp [VerifyOTP, hb, hl, DB.First, hr, invalidCode]
      · simp [VerifyOTP, hb, hl, DB.First, hr, hf, invalidCode]
  · exact VerifyOTP_bad_length lib env db req hb hl

theorem VerifyOTP_verified (lib : Lib) (env : Env) (db : DB) (req : verifyOTPRequest)
    (user : EarlyStartUser)
    (hb : bindVerifyOTP lib req = true) (hl : len (ToUpper lib (TrimSpace req.OTP)) = 6)
    (hr : env.dbReadErr = false) (hf : db.byEmail req.Email = some user)
    (hv : user.IsVerified = true) :
    VerifyOTP lib env db req = ⟨db, alreadyVerified, []⟩ := by
  unfold DB.byEmail at hf
  simp [VerifyOTP, hb, hl, DB.First, hr, hf, hv, alreadyVerified]

theorem VerifyOTP_expired (lib : Lib) (env : Env) (db : DB) (req : verifyOTPRequest)
    (user : EarlyStartUser)
    (hb : bindVerifyOTP lib req = true) (hl : len (ToUpper lib (TrimSpace req.OTP)) = 6)
    (hr : env.dbReadErr = false) (hf : db.byEmail req.Email = some user)
    (hv : user.IsVerified = false)
    (hx : user.OTPExpiresAt = none ∨ ∃ t, user.OTPExpiresAt = some t ∧ t < env.now) :
    VerifyOTP lib env db req = ⟨db, codeExpired, []⟩ := by
  unfold DB.byEmail at hf
  rcases hx with hx | ⟨t, hx, ht⟩
  · simp [VerifyOTP, hb, hl, DB.First, hr, hf, hv, hx, codeExpired]
  · simp [VerifyOTP, hb, hl, DB.First, hr, hf, hv, hx, ht, codeExpired]

theorem VerifyOTP_too_many (lib : Lib) (env : Env) (db : DB) (req : verifyOTPRequest)
    (user : EarlyStartUser) (t : Time)
    (hb : bindVerifyOTP lib req = true) (hl : len (ToUpper lib (TrimSpace req.OTP)) = 6)
    (hr : env.dbReadErr = false) (hf : db.byEmail req.Email = some user)
    (hv : user.IsVerified = false) (hx : user.OTPExpiresAt = some t) (ht : env.now ≤ t)
    (ha : maxOTPAttempts ≤ user.OTPAttempts) :
    VerifyOTP lib env db req = ⟨db, tooManyAttempts, []⟩ := by
  unfold DB.byEmail at hf
  have ht2 : ¬ t < env.now := not_lt.mpr ht
  simp [VerifyOTP, hb, hl, DB.First, hr, hf, hv, hx, ht2, ha, tooManyAttempts]

theorem VerifyOTP_mismatch (lib : Lib) (env : Env) (db : DB) (req : verifyOTPRequest)
    (user : EarlyStartUser) (t : Time)
    (hb : bindVerifyOTP lib req = true) (hl : len (ToUpper lib (TrimSpace req.OTP)) = 6)
    (hr : env.dbReadErr = false) (hf : db.byEmail req.Email = some user)
    (hv : user.IsVerified = false) (hx : user.OTPExpiresAt = some t) (ht : env.now ≤ t)
    (ha : user.OTPAttempts < maxOTPAttempts)
    (hm : ToUpper lib (TrimSpace req.OTP) ≠ user.OTPHash) :
    VerifyOTP lib env db req =
      ⟨(db.Updates env user.ID (markFailed user env.now)).1, invalidCode, []⟩ := by
  unfold DB.byEmail at hf
  have ht2 : ¬ t < env.now := not_lt.mpr ht
  have ha2 : ¬ maxOTPAttempts ≤ user.OTPAttempts := not_le.mpr ha
  simp [VerifyOTP, hb, hl, DB.First, hr, hf, hv, hx, ht2, ha2, hm, invalidCode]
  rfl

theorem VerifyOTP_match (lib : Lib) (env : Env) (db : DB) (req : verifyOTPRequest)
    (user : EarlyStartUser) (t : Time)
    (hb : bindVerifyOTP lib req = true) (hl : len (ToUpper lib (TrimSpace req.OTP)) = 6)
    (hr : env.dbReadErr = false) (hw : env.dbWriteErr = false)
    (hf : db.byEmail req.Email = some user)
    (hv : user.IsVerified = false) (hx : user.OTPExpiresAt = some t) (ht : env.now ≤ t)
    (ha : user.OTPAttempts < maxOTPAttempts)
    (hm : ToUpper lib (TrimSpace req.OTP) = user.OTPHash) :
    VerifyOTP lib env db req =
      ⟨(db.Updates env user.ID (markVerified env.now)).1, verifiedOK user.Email env.now, []⟩ := by
  unfold DB.byEmail at hf
  have ht2 : ¬ t < env.now := not_lt.mpr ht
  have ha2 : ¬ maxOTPAttempts ≤ user.OTPAttempts := not_le.mpr ha
  have hl2 : len user.OTPHash = 6 := hm ▸ hl
  simp [VerifyOTP, hb, hl2, DB.First, hr, hf, hv, hx, ht2, ha2, hm, DB.Updates, hw, verifiedOK]
  intro a _
  rfl

theorem Signup_invalid (lib : Lib) (e : EarlyStartController) (env : Env) (db : DB)
    (req : signupRequest) (h : validSignup lib req = false) :
    (Signup lib e env db req).db = db ∧ (Signup lib e env db req).resp.status = 400 ∧
      (Signup lib e env db req).mails = [] := by
  unfold validSignup at h
  by_cases hb : bindSignup lib req = true
  · have hp : validateEmailFormat lib req.Email = false := by simpa [hb] using h
    simp [Signup, hb, hp, errorJSON]
  · simp [Signup, hb, errorJSON]

theorem Signup_read_failed (lib : Lib) (e : EarlyStartController) (env : Env) (db : DB)
    (req : signupRequest) (h : validSignup lib req = true) (hr : env.dbReadErr = true) :
    Signup lib e env db req = ⟨db, serviceUnavailable, []⟩ := by
  simp only [validSignup, Bool.and_eq_true] at h
  simp [Signup, h.1, h.2, DB.First, hr]

theorem Signup_verified (lib : Lib) (e : EarlyStartController) (env : Env) (db : DB)
    (req : signupRequest) (existing : EarlyStartUser)
    (h : validSignup lib req = true) (hr : env.dbReadErr = false)
    (hf : db.byEmail req.Email = some existing) (hv : existing.IsVerified = true) :
    Signup lib e env db req = ⟨db, signupVerifiedOK, []⟩ := by
  simp only [validSignup, Bool.and_eq_true] at h
  unfold DB.byEmail at hf
  simp [Signup, h.1, h.2, DB.First, hr, hf, hv, signupVerifiedOK]

theorem Signup_cooldown (lib : Lib) (e : EarlyStartController) (env : Env) (db : DB)
    (req : signupRequest) (existing : EarlyStartUser) (t : Time)
    (h : validSignup lib req = true) (hr : env.dbReadErr = false)
    (hf : db.byEmail req.Email = some existing) (hv : existing.IsVerified = false)
    (hl : existing.OTPLastAttempt = some t) (hc : env.now - t < 1 * minute) :
    Signup lib e env db req = ⟨db, rateLimited, []⟩ := by
  simp only [validSignup, Bool.and_eq_true] at h
  unfold DB.byEmail at hf
  have hc2 : env.now - t < minute := by simpa using hc
  simp [Signup, h.1, h.2, DB.First, hr, hf, hv, hl, hc2, rateLimited]

theorem Signup_refresh (lib : Lib) (e : EarlyStartController) (env : Env) (db : DB)
    (req : signupRequest) (existing : EarlyStartUser) (otp tok : String)
    (h : validSignup lib req = true) (hr : env.dbReadErr = false)
    (hf : db.byEmail req.Email = some existing) (hv : existing.IsVerified = false)
    (hc : pastCooldown existing env.now)
    (ho : generateOTP env.randOTP = Except.ok otp)
    (hk : GenerateEngagementToken env.randToken = Except.ok tok)
    (hid : existing.ID ≠ 0) :
    Signup lib e env db req =
      ⟨(db.Updates env existing.ID
          (refresh req otp tok ((sendOutcome e env req.Email otp tok).getD false) env.now)).1,
        signupOK, signupMails e env req.Email otp tok⟩ := by
  simp only [validSignup, Bool.and_eq_true] at h
  unfold DB.byEmail at hf
  have hc2 : (match existing.OTPLastAttempt with
      | some t => decide (env.now - t < minute)
      | none => false) = false := by
    rcases hc with hc | ⟨t, hc, ht⟩
    · simp [hc]
    · have ht2 : ¬ env.now - t < minute := by simpa using ht
      simp [hc, ht2]
  simp [Signup, h.1, h.2, DB.First, hr, hf, hv, hc2, ho, hk, hid, signupOK, signupMails,
    sendOutcome]
  rfl

theorem Signup_create (lib : Lib) (e : EarlyStartController) (env : Env) (db : DB)
    (req : signupRequest) (otp tok : String)
    (h : validSignup lib req = true) (hr : env.dbReadErr = false)
    (hf : db.byEmail req.Email = none)
    (ho : generateOTP env.randOTP = Except.ok otp)
    (hk : GenerateEngagementToken env.randToken = Except.ok tok) :
    Signup lib e env db req =
      match db.Create env
          (freshUser req otp tok ((sendOutcome e env req.Email otp tok).getD false) env) with
      | none => ⟨db, serviceUnavailable, signupMails e env req.Email otp tok⟩
      | some db1 => ⟨db1, signupOK, signupMails e env req.Email otp tok⟩ := by
  simp only [validSignup, Bool.and_eq_true] at h
  unfold DB.byEmail at hf
  simp [Signup, h.1, h.2, DB.First, hr, hf, ho, hk, zeroUser, signupOK, signupMails,
    sendOutcome, freshUser]

theorem byEmail_some {db : DB} {email : String} {u : EarlyStartUser}
    (h : db.byEmail email = some u) : u ∈ db.rows ∧ u.Email = email := by
  unfold DB.byEmail at h
  refine ⟨List.mem_of_find?_eq_some h, ?_⟩
  have := List.find?_some h
  simpa using this

theorem byEmail_none {db : DB} {email : String} (h : db.byEmail email = none) :
    ∀ r ∈ db.rows, r.Email ≠ email := by
  unfold DB.byEmail at h
  intro r hr
  have := List.find?_eq_none.mp h r hr
  simpa using this

theorem WF_empty : DB.empty.WF := by decide

theorem WF_id_inj {db : DB} (h : db.WF) {a b : EarlyStartUser} (ha : a ∈ db.rows)
    (hb : b ∈ db.rows) (hab : a.ID = b.ID) : a = b :=
  List.inj_on_of_nodup_map h.1 ha hb hab

theorem WF_email_inj {db : DB} (h : db.WF) {a b : EarlyStartUser} (ha : a ∈ db.rows)
    (hb : b ∈ db.rows) (hab : a.Email = b.Email) : a = b :=
  List.inj_on_of_nodup_map h.2.1 ha hb hab

/-- In a well-formed table the row with a given email is the one the query returns. -/
theorem byEmail_of_mem {db : DB} (h : db.WF) {u : EarlyStartUser} (hu : u ∈ db.rows) :
    db.byEmail u.Email = some u := by
  cases hf : db.byEmail u.Email with
  | none => exact absurd rfl (byEmail_none hf u hu)
  | some v =>
    have hv := byEmail_some hf
    rw [WF_email_inj h hv.1 hu hv.2]

theorem Updates_failed (db : DB) (env : Env) (id : Nat) (f : EarlyStartUser → EarlyStartUser)
    (hw : env.dbWriteErr = true) : (db.Updates env id f).1 = db := by
  simp [DB.Updates, hw]

/-- In a well-formed table an accepted update by key rewrites exactly the row it names. -/
theorem Updates_eq_replace {db : DB} (h : db.WF) (env : Env) {user : EarlyStartUser}
    (hu : user ∈ db.rows) (f : EarlyStartUser → EarlyStartUser)
    (hw : env.dbWriteErr = false) :
    (db.Updates env user.ID f).1 = db.replace user (stamp env.now (f user)) := by
  simp only [DB.Updates, hw, DB.replace, Bool.false_eq_true, if_false, stamp]
  congr 1
  apply List.map_congr_left
  intro r hr
  by_cases hid : r.ID = user.ID
  · have := WF_id_inj h hr hu hid
    subst this
    simp
  · have : r ≠ user := fun hc => hid (by rw [hc])
    simp [hid, this]

theorem mem_replace {db : DB} {user new r : EarlyStartUser} (hr : r ∈ (db.replace user new).rows) :
    (r ∈ db.rows ∧ r ≠ user) ∨ (r = new ∧ user ∈ db.rows) := by
  simp only [DB.replace, List.mem_map] at hr
  obtain ⟨a, ha, rfl⟩ := hr
  by_cases hau : a = user
  · right; subst hau; simp [ha]
  · left; simp [hau, ha]

theorem replace_mem_of_ne {db : DB} {user new r : EarlyStartUser} (hr : r ∈ db.rows)
    (hne : r ≠ user) : r ∈ (db.replace user new).rows := by
  simp only [DB.replace, List.mem_map]
  exact ⟨r, hr, by simp [hne]⟩

theorem replace_mem_new {db : DB} {user new : EarlyStartUser} (hu : user ∈ db.rows) :
    new ∈ (db.replace user new).rows := by
  simp only [DB.replace, List.mem_map]
  exact ⟨user, hu, by simp⟩

theorem WF_replace {db : DB} (h : db.WF) {user new : EarlyStartUser}
    (hid : new.ID = user.ID) (hem : new.Email = user.Email) : (db.replace user new).WF := by
  have key1 : ((db.replace user new).rows.map fun r => r.ID) = db.rows.map fun r => r.ID := by
    simp only [DB.replace, List.map_map]
    apply List.map_congr_left
    intro r _
    by_cases hru : r = user
    · simp [hru, hid]
    · simp [hru]
  have key2 : ((db.replace user new).rows.map fun r => r.Email) =
      db.rows.map fun r => r.Email := by
    simp only [DB.replace, List.map_map]
    apply List.map_congr_left
    intro r _
    by_cases hru : r = user
    · simp [hru, hem]
    · simp [hru]
  refine ⟨key1 ▸ h.1, key2 ▸ h.2.1, h.2.2.1, ?_⟩
  intro r hr
  rcases mem_replace hr with ⟨hr1, _⟩ | ⟨rfl, hu⟩
  · exact h.2.2.2 r hr1
  · rw [hid]; exact h.2.2.2 user hu

theorem byEmail_replace {db : DB} {user new : EarlyStartUser} (hem : new.Email = user.Email)
    (email : String) :
    (db.replace user new).byEmail email =
      (db.byEmail email).map fun r => if r = user then new else r := by
  have key : ((fun u : EarlyStartUser => u.Email == email) ∘
      fun r => if r = user then new else r) = fun u => u.Email == email := by
    funext r
    by_cases hru : r = user
    · simp [hru, hem]
    · simp [hru]
  simp only [DB.byEmail, DB.replace, List.find?_map, key]

theorem Create_eq (db : DB) (env : Env) (user : EarlyStartUser) :
    db.Create env user = if env.dbWriteErr then none else some (db.insert env user) := rfl

theorem WF_insert {db : DB} (h : db.WF) (env : Env) (user : EarlyStartUser)
    (hf : db.byEmail user.Email = none) : (db.insert env user).WF := by
  refine ⟨?_, ?_, Nat.succ_pos _, ?_⟩
  · simp only [DB.insert, List.map_append, List.map_cons, List.map_nil]
    rw [List.nodup_append]
    refine ⟨h.1, List.nodup_singleton _, ?_⟩
    intro a ha hb
    rw [List.mem_singleton] at hb
    rw [List.mem_map] at ha
    obtain ⟨r, hr, rfl⟩ := ha
    have := (h.2.2.2 r hr).2
    omega
  · simp only [DB.insert, List.map_append, List.map_cons, List.map_nil]
    rw [List.nodup_append]
    refine ⟨h.2.1, List.nodup_singleton _, ?_⟩
    intro a ha hb
    rw [List.mem_singleton] at hb
    rw [List.mem_map] at ha
    obtain ⟨r, hr, rfl⟩ := ha
    exact byEmail_none hf r hr hb
  · intro r hr
    simp only [DB.insert, List.mem_append, List.mem_singleton] at hr
    rcases hr with hr | rfl
    · have := h.2.2.2 r hr
      simp only [DB.insert]
      omega
    · have := h.2.2.1
      simp only [DB.insert]
      omega

theorem VerifyOTP_match_write_failed (lib : Lib) (env : Env) (db : DB) (req : verifyOTPRequest)
    (user : EarlyStartUser) (t : Time)
    (hb : bindVerifyOTP lib req = true) (hl : len (ToUpper lib (TrimSpace req.OTP)) = 6)
    (hr : env.dbReadErr = false) (hw : env.dbWriteErr = true)
    (hf : db.byEmail req.Email = some user)
    (hv : user.IsVerified = false) (hx : user.OTPExpiresAt = some t) (ht : env.now ≤ t)
    (ha : user.OTPAttempts < maxOTPAttempts)
    (hm : ToUpper lib (TrimSpace req.OTP) = user.OTPHash) :
    VerifyOTP lib env db req = ⟨db, serviceUnavailable, []⟩ := by
  unfold DB.byEmail at hf
  have ht2 : ¬ t < env.now := not_lt.mpr ht
  have ha2 : ¬ maxOTPAttempts ≤ user.OTPAttempts := not_le.mpr ha
  have hl2 : len user.OTPHash = 6 := hm ▸ hl
  simp [VerifyOTP, hb, hl2, DB.First, hr, hf, hv, hx, ht2, ha2, hm, DB.Updates, hw]

theorem Signup_rand_failed_found (lib : Lib) (e : EarlyStartController) (env : Env) (db : DB)
    (req : signupRequest) (existing : EarlyStartUser)
    (h : validSignup lib req = true) (hr : env.dbReadErr = false)
    (hf : db.byEmail req.Email = some existing) (hv : existing.IsVerified = false)
    (hc : pastCooldown existing env.now)
    (hg : env.randOTP = none ∨ env.randToken = none) :
    Signup lib e env db req = ⟨db, serviceUnavailable, []⟩ := by
  simp only [validSignup, Bool.and_eq_true] at h
  unfold DB.byEmail at hf
  have hc2 : (match existing.OTPLastAttempt with
      | some t => decide (env.now - t < minute)
      | none => false) = false := by
    rcases hc with hc | ⟨t, hc, ht⟩
    · simp [hc]
    · have ht2 : ¬ env.now - t < minute := by simpa using ht
      simp [hc, ht2]
  rcases hg with hg | hg
  · simp [Signup, h.1, h.2, DB.First, hr, hf, hv, hc2, hg, generateOTP]
  · cases ho : env.randOTP with
    | none => simp [Signup, h.1, h.2, DB.First, hr, hf, hv, hc2, ho, generateOTP]
    | some b =>
      simp [Signup, h.1, h.2, DB.First, hr, hf, hv, hc2, ho, hg, generateOTP,
        GenerateEngagementToken]

theorem Signup_rand_failed_fresh (lib : Lib) (e : EarlyStartController) (env : Env) (db : DB)
    (req : signupRequest)
    (h : validSignup lib req = true) (hr : env.dbReadErr = false)
    (hf : db.byEmail req.Email = none)
    (hg : env.randOTP = none ∨ env.randToken = none) :
    Signup lib e env db req = ⟨db, serviceUnavailable, []⟩ := by
  simp only [validSignup, Bool.and_eq_true] at h
  unfold DB.byEmail at hf
  rcases hg with hg | hg
  · simp [Signup, h.1, h.2, DB.First, hr, hf, hg, generateOTP]
  · cases ho : env.randOTP with
    | none => simp [Signup, h.1, h.2, DB.First, hr, hf, ho, generateOTP]
    | some b =>
      simp [Signup, h.1, h.2, DB.First, hr, hf, ho, hg, generateOTP, GenerateEngagementToken]

/-- The row is unverified and either inside or past the cooldown of `Signup`. -/
theorem cooldown_cases (existing : EarlyStartUser) (now : Time) :
    pastCooldown existing now ∨
      ∃ t, existing.OTPLastAttempt = some t ∧ now - t < 1 * minute := by
  rcases Option.eq_none_or_eq_some existing.OTPLastAttempt with hl | ⟨t, hl⟩
  · exact Or.inl (Or.inl hl)
  · by_cases hc : now - t < 1 * minute
    · exact Or.inr ⟨t, hl, hc⟩
    · exact Or.inl (Or.inr ⟨t, hl, not_lt.mp hc⟩)

theorem Signup_rand_failed (lib : Lib) (e : EarlyStartController) (env : Env) (db : DB)
    (req : signupRequest)
    (hg : env.randOTP = none ∨ env.randToken = none) :
    (Signup lib e env db req).db = db ∧ (Signup lib e env db req).resp ≠ signupOK := by
  have n1 : serviceUnavailable ≠ signupOK := by decide
  have n2 : signupVerifiedOK ≠ signupOK := by decide
  have n3 : rateLimited ≠ signupOK := by decide
  by_cases hval : validSignup lib req = true
  swap
  · obtain ⟨h1, h2, _⟩ := Signup_invalid lib e env db req (by simpa using hval)
    refine ⟨h1, fun hc => ?_⟩
    rw [hc] at h2
    exact absurd h2 (by decide)
  by_cases hr : env.dbReadErr = true
  · rw [Signup_read_failed lib e env db req hval hr]; exact ⟨rfl, n1⟩
  have hr : env.dbReadErr = false := by simpa using hr
  cases hf : db.byEmail req.Email with
  | none => rw [Signup_rand_failed_fresh lib e env db req hval hr hf hg]; exact ⟨rfl, n1⟩
  | some existing =>
    by_cases hv : existing.IsVerified = true
    · rw [Signup_verified lib e env db req existing hval hr hf hv]; exact ⟨rfl, n2⟩
    have hv : existing.IsVerified = false := by simpa using hv
    rcases cooldown_cases existing env.now with hpast | ⟨t, hl, hc⟩
    · rw [Signup_rand_failed_found lib e env db req existing hval hr hf hv hpast hg]
      exact ⟨rfl, n1⟩
    · rw [Signup_cooldown lib e env db req existing t hval hr hf hv hl hc]
      exact ⟨rfl, n3⟩

theorem VerifyOTP_change (lib : Lib) (env : Env) (db : DB) (req : verifyOTPRequest)
    (h : db.WF) : Change db (Call.verify env req) (VerifyOTP lib env db req).db := by
  by_cases hb : bindVerifyOTP lib req = true
  swap
  · rw [VerifyOTP_bad_binding lib env db req (by simpa using hb)]; exact Or.inl rfl
  by_cases hl : len (ToUpper lib (TrimSpace req.OTP)) = 6
  swap
  · rw [VerifyOTP_bad_length lib env db req hb hl]; exact Or.inl rfl
  by_cases hr : env.dbReadErr = true
  · rw [VerifyOTP_not_found lib env db req hb (Or.inl hr)]; exact Or.inl rfl
  have hr : env.dbReadErr = false := by simpa using hr
  cases hf : db.byEmail req.Email with
  | none => rw [VerifyOTP_not_found lib env db req hb (Or.inr hf)]; exact Or.inl rfl
  | some user =>
    have hu := byEmail_some hf
    by_cases hv : user.IsVerified = true
    · rw [VerifyOTP_verified lib env db req user hb hl hr hf hv]; exact Or.inl rfl
    have hv : user.IsVerified = false := by simpa using hv
    cases hx : user.OTPExpiresAt with
    | none =>
      rw [VerifyOTP_expired lib env db req user hb hl hr hf hv (Or.inl hx)]; exact Or.inl rfl
    | some t =>
      by_cases ht : t < env.now
      · rw [VerifyOTP_expired lib env db req user hb hl hr hf hv (Or.inr ⟨t, hx, ht⟩)]
        exact Or.inl rfl
      have ht : env.now ≤ t := not_lt.mp ht
      by_cases ha : maxOTPAttempts ≤ user.OTPAttempts
      · rw [VerifyOTP_too_many lib env db req user t hb hl hr hf hv hx ht ha]; exact Or.inl rfl
      have ha : user.OTPAttempts < maxOTPAttempts := not_le.mp ha
      by_cases hw : env.dbWriteErr = true
      · by_cases hm : ToUpper lib (TrimSpace req.OTP) = user.OTPHash
        · rw [VerifyOTP_match_write_failed lib env db req user t hb hl hr hw hf hv hx ht ha hm]
          exact Or.inl rfl
        · rw [VerifyOTP_mismatch lib env db req user t hb hl hr hf hv hx ht ha hm,
            Updates_failed db env _ _ hw]
          exact Or.inl rfl
      have hw : env.dbWriteErr = false := by simpa using hw
      by_cases hm : ToUpper lib (TrimSpace req.OTP) = user.OTPHash
      · rw [VerifyOTP_match lib env db req user t hb hl hr hw hf hv hx ht ha hm]
        simp only [Updates_eq_replace h env hu.1 _ hw]
        exact Or.inr (Or.inl ⟨user, stamp env.now (markVerified env.now user), hu.1, hu.2, rfl,
          rfl, Or.inr (Or.inl ⟨rfl, rfl, rfl, rfl⟩), rfl⟩)
      · rw [VerifyOTP_mismatch lib env db req user t hb hl hr hf hv hx ht ha hm]
        simp only [Updates_eq_replace h env hu.1 _ hw]
        exact Or.inr (Or.inl ⟨user, stamp env.now (markFailed user env.now user), hu.1, hu.2,
          rfl, rfl, Or.inl ⟨hv, hv⟩, rfl⟩)

theorem Signup_change (lib : Lib) (e : EarlyStartController) (env : Env) (db : DB)
    (req : signupRequest) (h : db.WF) :
    Change db (Call.signup env req) (Signup lib e env db req).db := by
  by_cases hval : validSignup lib req = true
  swap
  · rw [(Signup_invalid lib e env db req (by simpa using hval)).1]; exact Or.inl rfl
  by_cases hr : env.dbReadErr = true
  · rw [Signup_read_failed lib e env db req hval hr]; exact Or.inl rfl
  have hr : env.dbReadErr = false := by simpa using hr
  cases ho : env.randOTP with
  | none => rw [(Signup_rand_failed lib e env db req (Or.inl ho)).1]; exact Or.inl rfl
  | some b =>
  cases hk : env.randToken with
  | none => rw [(Signup_rand_failed lib e env db req (Or.inr hk)).1]; exact Or.inl rfl
  | some bt =>
  obtain ⟨otp, hotp⟩ : ∃ otp, generateOTP env.randOTP = Except.ok otp := by
    rw [ho]; exact ⟨_, rfl⟩
  obtain ⟨tok, htok⟩ : ∃ tok, GenerateEngagementToken env.randToken = Except.ok tok := by
    rw [hk]; exact ⟨_, rfl⟩
  cases hf : db.byEmail req.Email with
  | none =>
    rw [Signup_create lib e env db req otp tok hval hr hf hotp htok, Create_eq]
    by_cases hw : env.dbWriteErr = true
    · simp only [hw, if_true]; exact Or.inl rfl
    · simp only [hw]
      exact Or.inr (Or.inr ⟨env, _, hf, rfl, rfl⟩)
  | some existing =>
    have hu := byEmail_some hf
    by_cases hv : existing.IsVerified = true
    · rw [Signup_verified lib e env db req existing hval hr hf hv]; exact Or.inl rfl
    have hv : existing.IsVerified = false := by simpa using hv
    have hid : existing.ID ≠ 0 := Nat.pos_iff_ne_zero.mp (h.2.2.2 existing hu.1).1
    have hpast := cooldown_cases existing env.now
    rcases hpast with hpast | ⟨t, hl, hc⟩
    · rw [Signup_refresh lib e env db req existing otp tok hval hr hf hv hpast hotp htok hid]
      by_cases hw : env.dbWriteErr = true
      · simp only [Updates_failed db env _ _ hw]; exact Or.inl rfl
      · have hw : env.dbWriteErr = false := by simpa using hw
        simp only [Updates_eq_replace h env hu.1 _ hw]
        exact Or.inr (Or.inl ⟨existing, stamp env.now (refresh req otp tok
          ((sendOutcome e env req.Email otp tok).getD false) env.now existing), hu.1, hu.2,
          rfl, rfl, Or.inl ⟨hv, hv⟩, rfl⟩)
    · rw [Signup_cooldown lib e env db req existing t hval hr hf hv hl hc]; exact Or.inl rfl

theorem TrackEngagement_eq (env : Env) (db : DB) (filename : String) :
    TrackEngagement env db filename =
      match db.First env (fun u => u.EngagementToken == TrimSuffix filename ".png") with
      | Lookup.found user =>
        ⟨(db.Updates env user.ID (markOpen user env)).1, ⟨200, Body.data "image/png" pixel⟩, []⟩
      | _ => ⟨db, ⟨200, Body.data "image/png" pixel⟩, []⟩ := by
  cases h : db.First env (fun u => u.EngagementToken == TrimSuffix filename ".png") with
  | notFound => simp only [TrackEngagement, h]; rfl
  | failed => simp only [TrackEngagement, h]; rfl
  | found user => simp only [TrackEngagement, h]; rfl

theorem TrackEngagement_change (env : Env) (db : DB) (filename : String) (h : db.WF) :
    Change db (Call.track env filename) (TrackEngagement env db filename).db := by
  rw [TrackEngagement_eq]
  unfold DB.First
  by_cases hr : env.dbReadErr = true
  · simp only [hr, if_true]; exact Or.inl rfl
  have hr : env.dbReadErr = false := by simpa using hr
  simp only [hr, Bool.false_eq_true, if_false]
  cases hf : db.rows.find? (fun u => u.EngagementToken == TrimSuffix filename ".png") with
  | none => exact Or.inl rfl
  | some user =>
    simp only []
    have hu : user ∈ db.rows := List.mem_of_find?_eq_some hf
    have ht : user.EngagementToken = TrimSuffix filename ".png" := by
      simpa using List.find?_some hf
    by_cases hw : env.dbWriteErr = true
    · simp only [Updates_failed db env _ _ hw]; exact Or.inl rfl
    · have hw : env.dbWriteErr = false := by simpa using hw
      simp only [Updates_eq_replace h env hu _ hw]
      refine Or.inr (Or.inl ⟨user, stamp env.now (markOpen user env user), hu, ht, ?_, ?_,
        Or.inr (Or.inr ?_), rfl⟩)
      · unfold markOpen stamp; split <;> rfl
      · unfold markOpen stamp; split <;> rfl
      · unfold markOpen stamp; split <;> exact ⟨rfl, rfl, rfl, rfl⟩

theorem step_change (lib : Lib) (e : EarlyStartController) (db : DB) (c : Call) (h : db.WF) :
    Change db c (step lib e db c).db := by
  cases c with
  | signup env req => exact Signup_change lib e env db req h
  | verify env req => exact VerifyOTP_change lib env db req h
  | track env filename => exact TrackEngagement_change env db filename h

theorem Change_WF {db db1 : DB} {c : Call} (h : db.WF) (hc : Change db c db1) : db1.WF := by
  rcases hc with rfl | ⟨user, new, _, _, hid, hem, _, rfl⟩ | ⟨env, new, hf, _, rfl⟩
  · exact h
  · exact WF_replace h hid hem
  · exact WF_insert h env new hf

theorem step_WF (lib : Lib) (e : EarlyStartController) (db : DB) (c : Call) (h : db.WF) :
    (step lib e db c).db.WF := Change_WF h (step_change lib e db c h)

theorem run_WF (lib : Lib) (e : EarlyStartController) (cs : List Call) :
    ∀ db : DB, db.WF → (run lib e db cs).WF := by
  induction cs with
  | nil => intro db h; exact h
  | cons c cs ih => intro db h; exact ih _ (step_WF lib e db c h)

/-- The query by email after an accepted update that keeps emails. -/
theorem byEmail_Updates (db : DB) (env : Env) (id : Nat) (f : EarlyStartUser → EarlyStartUser)
    (hw : env.dbWriteErr = false) (hem : ∀ u, (f u).Email = u.Email) (email : String) :
    (db.Updates env id f).1.byEmail email =
      (db.byEmail email).map fun r => if r.ID = id then stamp env.now (f r) else r := by
  have key : ((fun u : EarlyStartUser => u.Email == email) ∘
      fun r => if r.ID = id then stamp env.now (f r) else r) = fun u => u.Email == email := by
    funext r
    by_cases hid : r.ID = id
    · simp [hid, stamp, hem]
    · simp [hid]
  simp only [DB.byEmail, DB.Updates, hw, Bool.false_eq_true, if_false]
  rw [show (fun r : EarlyStartUser => if r.ID = id then { f r with UpdatedAt := env.now } else r)
      = fun r => if r.ID = id then stamp env.now (f r) else r from rfl, List.find?_map, key]

/-- A run of mismatching `VerifyOTP` requests that stays below the attempt limit answers
each with the invalid-code error and adds one failed attempt per request. -/
theorem verifyAll_mismatches (lib : Lib) (email : String) (t : Time) (code : String)
    (calls : List (Env × verifyOTPRequest)) :
    ∀ (db : DB) (user : EarlyStartUser),
      db.byEmail email = some user → user.IsVerified = false → user.OTPExpiresAt = some t →
      user.OTPHash = code → user.OTPAttempts + calls.length ≤ 5 →
      (∀ c ∈ calls, c.2.Email = email ∧ bindVerifyOTP lib c.2 = true ∧
        len (ToUpper lib (TrimSpace c.2.OTP)) = 6 ∧ ToUpper lib (TrimSpace c.2.OTP) ≠ code ∧
        c.1.now ≤ t ∧ c.1.dbReadErr = false ∧ c.1.dbWriteErr = false) →
      (verifyAll lib db calls).2 = List.replicate calls.length invalidCode ∧
      ∃ user1, (verifyAll lib db calls).1.byEmail email = some user1 ∧
        user1.IsVerified = false ∧ user1.OTPExpiresAt = some t ∧ user1.OTPHash = code ∧
        user1.OTPAttempts = user.OTPAttempts + calls.length := by
  induction calls with
  | nil =>
    intro db user hf hv hx hc _ _
    exact ⟨rfl, user, hf, hv, hx, hc, by simp⟩
  | cons c cs ih =>
    intro db user hf hv hx hc hle hall
    obtain ⟨hce, hcb, hcl, hcm, hct, hcr, hcw⟩ := hall c (List.mem_cons_self _ _)
    have hlen : ((c :: cs).length : Int) = cs.length + 1 := by simp
    have ha : user.OTPAttempts < maxOTPAttempts := by
      have : (0 : Int) ≤ cs.length := Int.natCast_nonneg _
      show user.OTPAttempts < 5
      omega
    have hstep := VerifyOTP_mismatch lib c.1 db c.2 user t hcb hcl hcr (hce ▸ hf) hv hx hct ha
      (hc ▸ hcm)
    have hf1 : (VerifyOTP lib c.1 db c.2).db.byEmail email =
        some (stamp c.1.now (markFailed user c.1.now user)) := by
      rw [hstep]
      simp only []
      rw [byEmail_Updates db c.1 user.ID (markFailed user c.1.now) hcw (fun _ => rfl), hf]
      simp
    obtain ⟨hresp, user1, hf2, hv2, hx2, hc2, ha2⟩ :=
      ih (VerifyOTP lib c.1 db c.2).db _ hf1 hv hx hc
        (by show user.OTPAttempts + 1 + (cs.length : Int) ≤ 5; omega)
        (fun x hx => hall x (List.mem_cons_of_mem _ hx))
    refine ⟨?_, user1, ?_, hv2, hx2, hc2, ?_⟩
    · show (VerifyOTP lib c.1 db c.2).resp :: _ = _
      rw [hresp, hstep]; rfl
    · exact hf2
    · rw [ha2]
      show user.OTPAttempts + 1 + (cs.length : Int) = _
      omega

/-- A successful `Signup` for an email without a row: everything worked and the row was
inserted. -/
theorem Signup_fresh_success (lib : Lib) (e : EarlyStartController) (env : Env) (db : DB)
    (req : signupRequest) (hf : db.byEmail req.Email = none)
    (hok : (Signup lib e env db req).resp.status = 200) :
    validSignup lib req = true ∧ env.dbReadErr = false ∧ env.dbWriteErr = false ∧
    ∃ otp tok, generateOTP env.randOTP = Except.ok otp ∧
      GenerateEngagementToken env.randToken = Except.ok tok ∧
      Signup lib e env db req =
        ⟨db.insert env
            (freshUser req otp tok ((sendOutcome e env req.Email otp tok).getD false) env),
          signupOK, signupMails e env req.Email otp tok⟩ := by
  by_cases hval : validSignup lib req = true
  swap
  · have := (Signup_invalid lib e env db req (by simpa using hval)).2.1
    rw [this] at hok; exact absurd hok (by decide)
  by_cases hr : env.dbReadErr = true
  · rw [Signup_read_failed lib e env db req hval hr] at hok
    exact absurd hok (show ¬ serviceUnavailable.status = 200 by decide)
  have hr : env.dbReadErr = false := by simpa using hr
  cases ho : env.randOTP with
  | none =>
    rw [Signup_rand_failed_fresh lib e env db req hval hr hf (Or.inl ho)] at hok
    exact absurd hok (show ¬ serviceUnavailable.status = 200 by decide)
  | some b =>
  cases hk : env.randToken with
  | none =>
    rw [Signup_rand_failed_fresh lib e env db req hval hr hf (Or.inr hk)] at hok
    exact absurd hok (show ¬ serviceUnavailable.status = 200 by decide)
  | some bt =>
  obtain ⟨otp, hotp⟩ : ∃ otp, generateOTP env.randOTP = Except.ok otp := by
    rw [ho]; exact ⟨_, rfl⟩
  obtain ⟨tok, htok⟩ : ∃ tok, GenerateEngagementToken env.randToken = Except.ok tok := by
    rw [hk]; exact ⟨_, rfl⟩
  have heq := Signup_create lib e env db req otp tok hval hr hf hotp htok
  rw [Create_eq] at heq
  by_cases hw : env.dbWriteErr = true
  · rw [heq] at hok
    simp only [hw, if_true] at hok
    exact absurd hok (show ¬ serviceUnavailable.status = 200 by decide)
  have hw : env.dbWriteErr = false := by simpa using hw
  refine ⟨hval, hr, hw, otp, tok, ho ▸ hotp, hk ▸ htok, ?_⟩
  rw [heq]
  simp only [hw, Bool.false_eq_true, if_false]

/-- A `Signup` that answers with the code-sent message issued a code: for a new email it
inserted the row, for an unverified row past the cooldown it wrote the update. -/
theorem Signup_issued (lib : Lib) (e : EarlyStartController) (env : Env) (db : DB)
    (req : signupRequest) (hwf : db.WF)
    (hresp : (Signup lib e env db req).resp = signupOK) :
    validSignup lib req = true ∧ env.dbReadErr = false ∧
    ∃ otp tok, generateOTP env.randOTP = Except.ok otp ∧
      GenerateEngagementToken env.randToken = Except.ok tok ∧
      ((db.byEmail req.Email = none ∧ env.dbWriteErr = false ∧
          (Signup lib e env db req).db = db.insert env
            (freshUser req otp tok ((sendOutcome e env req.Email otp tok).getD false) env)) ∨
        ∃ existing, db.byEmail req.Email = some existing ∧ existing.IsVerified = false ∧
          pastCooldown existing env.now ∧
          (Signup lib e env db req).db = (db.Updates env existing.ID
            (refresh req otp tok ((sendOutcome e env req.Email otp tok).getD false)
              env.now)).1) := by
  have n1 : serviceUnavailable ≠ signupOK := by decide
  have n2 : signupVerifiedOK ≠ signupOK := by decide
  have n3 : rateLimited ≠ signupOK := by decide
  by_cases hval : validSignup lib req = true
  swap
  · have := (Signup_invalid lib e env db req (by simpa using hval)).2.1
    rw [hresp] at this; exact absurd this (by decide)
  by_cases hr : env.dbReadErr = true
  · rw [Signup_read_failed lib e env db req hval hr] at hresp; exact absurd hresp n1
  have hr : env.dbReadErr = false := by simpa using hr
  cases ho : env.randOTP with
  | none => exact absurd hresp (Signup_rand_failed lib e env db req (Or.inl ho)).2
  | some b =>
  cases hk : env.randToken with
  | none => exact absurd hresp (Signup_rand_failed lib e env db req (Or.inr hk)).2
  | some bt =>
  obtain ⟨otp, hotp⟩ : ∃ otp, generateOTP env.randOTP = Except.ok otp := by
    rw [ho]; exact ⟨_, rfl⟩
  obtain ⟨tok, htok⟩ : ∃ tok, GenerateEngagementToken env.randToken = Except.ok tok := by
    rw [hk]; exact ⟨_, rfl⟩
  refine ⟨hval, hr, otp, tok, ho ▸ hotp, hk ▸ htok, ?_⟩
  cases hf : db.byEmail req.Email with
  | none =>
    left
    have hst : (Signup lib e env db req).resp.status = 200 := by rw [hresp]; rfl
    obtain ⟨_, _, hw, otp2, tok2, h1, h2, h3⟩ := Signup_fresh_success lib e env db req hf hst
    rw [hotp] at h1; rw [htok] at h2
    refine ⟨rfl, hw, ?_⟩
    rw [h3]
    cases h1; cases h2; rfl
  | some existing =>
    right
    have hu := byEmail_some hf
    by_cases hv : existing.IsVerified = true
    · rw [Signup_verified lib e env db req existing hval hr hf hv] at hresp
      exact absurd hresp n2
    have hv : existing.IsVerified = false := by simpa using hv
    have hid : existing.ID ≠ 0 := Nat.pos_iff_ne_zero.mp (hwf.2.2.2 existing hu.1).1
    rcases cooldown_cases existing env.now with hpast | ⟨t, hl, hc⟩
    · refine ⟨existing, rfl, hv, hpast, ?_⟩
      rw [Signup_refresh lib e env db req existing otp tok hval hr hf hv hpast hotp htok hid]
    · rw [Signup_cooldown lib e env db req existing t hval hr hf hv hl hc] at hresp
      exact absurd hresp n3

theorem byEmail_insert_of_none (db : DB) (env : Env) (user : EarlyStartUser)
    (hf : db.byEmail user.Email = none) :
    (db.insert env user).byEmail user.Email =
      some { user with ID := db.nextID, CreatedAt := env.now, UpdatedAt := env.now } := by
  unfold DB.byEmail at hf ⊢
  simp only [DB.insert, List.find?_append, hf, Option.none_or]
  simp [List.find?_cons]

theorem byEmail_insert_of_some (db : DB) (env : Env) (user r : EarlyStartUser) (email : String)
    (hf : db.byEmail email = some r) : (db.insert env user).byEmail email = some r := by
  unfold DB.byEmail at hf ⊢
  simp only [DB.insert, List.find?_append, hf]
  rfl

/-- In a well-formed table an email has exactly one row as soon as it has one. -/
theorem filter_email_length_one {db : DB} (h : db.WF) {email : String} {r : EarlyStartUser}
    (hf : db.byEmail email = some r) :
    (db.rows.filter fun u => u.Email == email).length = 1 := by
  have hr := byEmail_some hf
  have hmem : email ∈ db.rows.map fun u => u.Email := List.mem_map.mpr ⟨r, hr.1, hr.2⟩
  have hcount := List.count_eq_one_of_mem h.2.1 hmem
  rw [← List.countP_eq_length_filter]
  rw [List.count, List.countP_map] at hcount
  rw [← hcount]
  apply List.countP_congr
  intro x _
  simp only [Function.comp, beq_iff_eq]

/-- What `Signup` does when it issues a code: the response, the mails and the row. -/
theorem Signup_issue_row (lib : Lib) (e : EarlyStartController) (env : Env) (db : DB)
    (req : signupRequest) (otp tok : String) (hwf : db.WF)
    (hval : validSignup lib req = true) (hr : env.dbReadErr = false)
    (hw : env.dbWriteErr = false)
    (ho : generateOTP env.randOTP = Except.ok otp)
    (hk : GenerateEngagementToken env.randToken = Except.ok tok)
    (hcase : db.byEmail req.Email = none ∨
      ∃ existing, db.byEmail req.Email = some existing ∧ existing.IsVerified = false ∧
        pastCooldown existing env.now) :
    (Signup lib e env db req).resp = signupOK ∧
    (Signup lib e env db req).mails = signupMails e env req.Email otp tok ∧
    (Signup lib e env db req).db.WF ∧
    ∃ r, (Signup lib e env db req).db.byEmail req.Email = some r ∧
      Issued req otp tok ((sendOutcome e env req.Email otp tok).getD false) env.now r := by
  have hwf1 := step_WF lib e db (Call.signup env req) hwf
  rcases hcase with hf | ⟨existing, hf, hv, hpast⟩
  · have heq := Signup_create lib e env db req otp tok hval hr hf ho hk
    rw [Create_eq] at heq
    simp only [hw, Bool.false_eq_true, if_false] at heq
    refine ⟨by rw [heq], by rw [heq], hwf1, ?_⟩
    rw [heq]
    refine ⟨_, byEmail_insert_of_none db env (freshUser req otp tok _ env) hf, ?_⟩
    exact ⟨rfl, rfl, rfl, rfl, rfl, rfl, rfl, rfl, rfl, rfl, rfl, rfl, rfl⟩
  · have hu := byEmail_some hf
    have hid : existing.ID ≠ 0 := Nat.pos_iff_ne_zero.mp (hwf.2.2.2 existing hu.1).1
    have heq := Signup_refresh lib e env db req existing otp tok hval hr hf hv hpast ho hk hid
    refine ⟨by rw [heq], by rw [heq], hwf1, ?_⟩
    rw [heq]
    refine ⟨stamp env.now (refresh req otp tok
      ((sendOutcome e env req.Email otp tok).getD false) env.now existing), ?_, ?_⟩
    · show (db.Updates env existing.ID _).1.byEmail req.Email = _
      rw [byEmail_Updates db env existing.ID (refresh req otp tok
        ((sendOutcome e env req.Email otp tok).getD false) env.now) hw (fun _ => rfl), hf]
      simp
    · exact ⟨hu.2, rfl, rfl, rfl, rfl, hv, rfl, rfl, rfl, rfl, rfl, rfl, rfl⟩

theorem minute_eq : (1 : Time) * minute = 60 * second := by simp [minute]

theorem bindVerifyOTP_of_validSignup (lib : Lib) (req : signupRequest) (c : String)
    (hval : validSignup lib req = true) (hc : c.length = 6) :
    bindVerifyOTP lib ⟨req.Email, c⟩ = true := by
  have hne : c ≠ "" := by
    intro h0
    rw [h0] at hc
    exact absurd hc (by decide)
  simp only [validSignup, bindSignup, Bool.and_eq_true] at hval
  simp [bindVerifyOTP, hval.1.1, hval.1.2, hc, hne]

theorem Change_VerifiedCleared {db db1 : DB} {c : Call} (hinv : VerifiedCleared db)
    (hc : Change db c db1) : VerifiedCleared db1 := by
  rcases hc with rfl | ⟨user, new, hu, _, _, _, hrc, rfl⟩ | ⟨env, new, _, hnv, rfl⟩
  · exact hinv
  · intro r hr hv
    rcases mem_replace hr with ⟨hr1, _⟩ | ⟨rfl, _⟩
    · exact hinv r hr1 hv
    · rcases hrc with ⟨_, h2⟩ | h2 | ⟨h1, h2, h3, h4⟩
      · rw [h2] at hv; exact absurd hv (by decide)
      · exact h2.2
      · rw [h2, h3, h4]; exact hinv user hu (h1 ▸ hv)
  · intro r hr hv
    simp only [DB.insert, List.mem_append, List.mem_singleton] at hr
    rcases hr with hr | rfl
    · exact hinv r hr hv
    · exact absurd (hnv ▸ hv : false = true) (by decide)

/-- A verified row stays verified, under the same key and email, across one request. -/
theorem Change_verified_stays {db db1 : DB} {c : Call} (hc : Change db c db1)
    {r : EarlyStartUser} (hr : r ∈ db.rows) (hv : r.IsVerified = true) :
    ∃ r1 ∈ db1.rows, r1.ID = r.ID ∧ r1.Email = r.Email ∧ r1.IsVerified = true := by
  rcases hc with rfl | ⟨user, new, hu, _, hid, hem, hrc, rfl⟩ | ⟨env, new, _, _, rfl⟩
  · exact ⟨r, hr, rfl, rfl, hv⟩
  · by_cases hru : r = user
    · subst hru
      refine ⟨new, replace_mem_new hu, hid, hem, ?_⟩
      rcases hrc with ⟨h1, _⟩ | h2 | ⟨h1, _⟩
      · rw [h1] at hv; exact absurd hv (by decide)
      · exact h2.1
      · rw [h1]; exact hv
    · exact ⟨r, replace_mem_of_ne hr hru, rfl, rfl, hv⟩
  · exact ⟨r, by simp [DB.insert, hr], rfl, rfl, hv⟩

theorem run_VerifiedCleared (lib : Lib) (e : EarlyStartController) (cs : List Call) :
    ∀ db : DB, db.WF → VerifiedCleared db → VerifiedCleared (run lib e db cs) := by
  induction cs with
  | nil => intro db _ h; exact h
  | cons c cs ih =>
    intro db hwf h
    exact ih _ (step_WF lib e db c hwf) (Change_VerifiedCleared h (step_change lib e db c hwf))

theorem run_verified_stays (lib : Lib) (e : EarlyStartController) (cs : List Call) :
    ∀ (db : DB) (r : EarlyStartUser), db.WF → r ∈ db.rows → r.IsVerified = true →
      ∃ r1 ∈ (run lib e db cs).rows, r1.ID = r.ID ∧ r1.Email = r.Email ∧
        r1.IsVerified = true := by
  induction cs with
  | nil => intro db r _ hr hv; exact ⟨r, hr, rfl, rfl, hv⟩
  | cons c cs ih =>
    intro db r hwf hr hv
    obtain ⟨r1, hr1, hid1, hem1, hv1⟩ := Change_verified_stays (step_change lib e db c hwf) hr hv
    obtain ⟨r2, hr2, hid2, hem2, hv2⟩ := ih _ r1 (step_WF lib e db c hwf) hr1 hv1
    exact ⟨r2, hr2, hid2.trans hid1, hem2.trans hem1, hv2⟩

theorem run_append (lib : Lib) (e : EarlyStartController) (cs cs2 : List Call) :
    ∀ db : DB, run lib e db (cs ++ cs2) = run lib e (run lib e db cs) cs2 := by
  induction cs with
  | nil => intro db; rfl
  | cons c cs ih => intro db; exact ih _

/-- Every reachable table is well formed. -/
theorem Reachable_WF {lib : Lib} {e : EarlyStartController} {db : DB}
    (h : Reachable lib e db) : db.WF := by
  obtain ⟨cs, rfl⟩ := h
  exact run_WF lib e cs _ WF_empty

/-- A request that avoids an email and its tracking token leaves the row of that email as
it is. -/
theorem Change_avoids {db db1 : DB} {c : Call} (hwf : db.WF) (hc : Change db c db1)
    {email : String} {r : EarlyStartUser} (hf : db.byEmail email = some r)
    (ha : c.avoids email r.EngagementToken) : db1.byEmail email = some r := by
  have hr := byEmail_some hf
  rcases hc with rfl | ⟨user, new, hu, htg, _, hem, _, rfl⟩ | ⟨env, new, _, _, rfl⟩
  · exact hf
  · have hne : r ≠ user := by
      intro h
      subst h
      cases c with
      | signup env req => exact ha (htg.symm.trans hr.2)
      | verify env req => exact ha (htg.symm.trans hr.2)
      | track env filename => exact ha htg.symm
    rw [byEmail_replace hem, hf]
    simp [hne]
  · exact byEmail_insert_of_some db env new r email hf

theorem run_avoids (lib : Lib) (e : EarlyStartController) (email : String)
    (r : EarlyStartUser) (cs : List Call) :
    ∀ db : DB, db.WF → db.byEmail email = some r →
      (∀ c ∈ cs, c.avoids email r.EngagementToken) →
      (run lib e db cs).byEmail email = some r := by
  induction cs with
  | nil => intro db _ hf _; exact hf
  | cons c cs ih =>
    intro db hwf hf ha
    exact ih _ (step_WF lib e db c hwf)
      (Change_avoids hwf (step_change lib e db c hwf) hf (ha c (List.mem_cons_self _ _)))
      (fun x hx => ha x (List.mem_cons_of_mem _ hx))

theorem encodeURL_data_length : encodeURL.data.length = 64 := by decide

theorem encodeURLChar_mem (n : Nat) : encodeURLChar n ∈ encodeURL.data := by
  unfold encodeURLChar
  by_cases h : n < encodeURL.data.length
  · rw [List.getD_eq_getElem _ _ h]; exact List.getElem_mem h
  · rw [List.getD_eq_default _ _ (not_lt.mp h)]; decide

/-- The encoding of `3 * k + 2` bytes: `4 * k + 3` symbols of the alphabet, then one
padding character. -/
theorem EncodeToString_rem_two (k : Nat) :
    ∀ l : List Nat, l.length = 3 * k + 2 →
      ∃ p, EncodeToString l = p ++ ['='] ∧ p.length = 4 * k + 3 ∧
        ∀ c ∈ p, c ∈ encodeURL.data := by
  induction k with
  | zero =>
    intro l hl
    match l, hl with
    | [a, b], _ =>
      refine ⟨[encodeURLChar (a / 4), encodeURLChar ((a % 4) * 16 + b / 16),
        encodeURLChar ((b % 16) * 4)], rfl, rfl, ?_⟩
      intro c hc
      simp only [List.mem_cons, List.mem_singleton, List.mem_nil_iff, or_false] at hc
      rcases hc with rfl | rfl | rfl <;> exact encodeURLChar_mem _
  | succ k ih =>
    intro l hl
    match l, hl with
    | a :: b :: c :: rest, hl =>
      have hrest : rest.length = 3 * k + 2 := by
        simp only [List.length_cons] at hl; omega
      obtain ⟨p, hp, hlen, hmem⟩ := ih rest hrest
      refine ⟨encodeURLChar (a / 4) :: encodeURLChar ((a % 4) * 16 + b / 16) ::
        encodeURLChar ((b % 16) * 4 + c / 64) :: encodeURLChar (c % 64) :: p, ?_, ?_, ?_⟩
      · rw [EncodeToString, hp]; rfl
      · simp only [List.length_cons, hlen]; omega
      · intro x hx
        simp only [List.mem_cons] at hx
        rcases hx with rfl | rfl | rfl | rfl | hx
        · exact encodeURLChar_mem _
        · exact encodeURLChar_mem _
        · exact encodeURLChar_mem _
        · exact encodeURLChar_mem _
        · exact hmem x hx

/-- A `VerifyOTP` that ends in the expired, too-many-attempts or already-verified response
wrote nothing. -/
theorem VerifyOTP_no_write (lib : Lib) (env : Env) (db : DB) (req : verifyOTPRequest)
    (h : (VerifyOTP lib env db req).resp = codeExpired ∨
      (VerifyOTP lib env db req).resp = tooManyAttempts ∨
      (VerifyOTP lib env db req).resp = alreadyVerified) :
    (VerifyOTP lib env db req).db = db := by
  have n1 : invalidCode ≠ codeExpired := by decide
  have n2 : invalidCode ≠ tooManyAttempts := by decide
  have n3 : invalidCode ≠ alreadyVerified := by decide
  by_cases hb : bindVerifyOTP lib req = true
  swap
  · rw [VerifyOTP_bad_binding lib env db req (by simpa using hb)]
  by_cases hl : len (ToUpper lib (TrimSpace req.OTP)) = 6
  swap
  · rw [VerifyOTP_bad_length lib env db req hb hl]
  by_cases hr : env.dbReadErr = true
  · rw [VerifyOTP_not_found lib env db req hb (Or.inl hr)]
  have hr : env.dbReadErr = false := by simpa using hr
  cases hf : db.byEmail req.Email with
  | none => rw [VerifyOTP_not_found lib env db req hb (Or.inr hf)]
  | some user =>
    by_cases hv : user.IsVerified = true
    · rw [VerifyOTP_verified lib env db req user hb hl hr hf hv]
    have hv : user.IsVerified = false := by simpa using hv
    rcases Option.eq_none_or_eq_some user.OTPExpiresAt with hx | ⟨t, hx⟩
    · rw [VerifyOTP_expired lib env db req user hb hl hr hf hv (Or.inl hx)]
    by_cases ht : t < env.now
    · rw [VerifyOTP_expired lib env db req user hb hl hr hf hv (Or.inr ⟨t, hx, ht⟩)]
    have ht : env.now ≤ t := not_lt.mp ht
    by_cases ha : maxOTPAttempts ≤ user.OTPAttempts
    · rw [VerifyOTP_too_many lib env db req user t hb hl hr hf hv hx ht ha]
    have ha : user.OTPAttempts < maxOTPAttempts := not_le.mp ha
    by_cases hm : ToUpper lib (TrimSpace req.OTP) = user.OTPHash
    · by_cases hw : env.dbWriteErr = true
      · rw [VerifyOTP_match_write_failed lib env db req user t hb hl hr hw hf hv hx ht ha hm]
      · rw [VerifyOTP_match lib env db req user t hb hl hr (by simpa using hw) hf hv hx ht ha
          hm] at h
        simp [verifiedOK, codeExpired, tooManyAttempts, alreadyVerified, errorJSON] at h
    · rw [VerifyOTP_mismatch lib env db req user t hb hl hr hf hv hx ht ha hm] at h
      rcases h with h | h | h
      · exact absurd h n1
      · exact absurd h n2
      · exact absurd h n3

/-- Inside the 64-bit range nothing wraps. -/
theorem wrapInt_of_range (x : Int) (h1 : -9223372036854775808 ≤ x)
    (h2 : x ≤ 9223372036854775807) : wrapInt x = x := by
  unfold wrapInt
  rw [Int.emod_eq_of_lt (by omega) (by omega)]
  omega

set_option maxRecDepth 100000 in
theorem charset_symbol_count_finRange : ∀ c ∈ charset.data,
    ((List.finRange 256).filter fun v : Fin 256 =>
      charset.data.getD (v.val % len charset) 'A' = c).length = 8 := by decide

theorem charset_symbol_count (c : Char) (hc : c ∈ charset.data) :
    (Finset.univ.filter fun v : Byte =>
      charset.data.getD (v.val % len charset) 'A' = c).card = 8 := by
  rw [Finset.card_def, Finset.filter_val, Fin.univ_def]
  simp only [Multiset.filter_coe, Multiset.coe_card]
  exact charset_symbol_count_finRange c hc

theorem symbolAt_generateOTP (b : Fin 6 → Byte) (i : Fin 6) :
    symbolAt (generateOTP (some b)) i =
      some (charset.data.getD ((b i).val % len charset) 'A') := by
  simp only [symbolAt, generateOTP]
  rw [List.get?_eq_getElem?, List.getElem?_ofFn]
  simp [List.ofFnNthVal]

/-- The inputs of `generateOTP` that yield a given code: byte by byte, those that select the
symbol of the code at that position. -/
theorem generateOTP_eq_iff (s : String) (hs : s.length = 6) (b : Fin 6 → Byte) :
    generateOTP (some b) = Except.ok s ↔
      ∀ i : Fin 6, charset.data.getD ((b i).val % len charset) 'A' = s.data.getD i.val 'A' := by
  have hlen : s.data.length = 6 := hs
  constructor
  · intro h i
    have hd := generateOTP_data b s h
    have hi : i.val < s.data.length := by rw [hlen]; exact i.isLt
    rw [List.getD_eq_getElem _ _ hi]
    simp only [hd, List.getElem_ofFn]
  · intro h
    simp only [generateOTP]
    congr 1
    have hsd : s = String.mk s.data := rfl
    rw [hsd]
    congr 1
    apply List.ext_getElem
    · rw [List.length_ofFn]; exact hlen.symm
    · intro n h1 h2
      rw [List.getElem_ofFn]
      have hn : n < 6 := by rw [List.length_ofFn] at h1; exact h1
      have := h ⟨n, hn⟩
      rw [List.getD_eq_getElem _ _ h2] at this
      exact this

theorem generateOTP_fiber_card (s : String) (hs : s.length = 6)
    (hmem : ∀ x ∈ s.data, x ∈ charset.data) :
    (Finset.univ.filter fun b : Fin 6 → Byte => generateOTP (some b) = Except.ok s).card =
      8 ^ 6 := by
  have hlen : s.data.length = 6 := hs
  have hset : (Finset.univ.filter fun b : Fin 6 → Byte => generateOTP (some b) = Except.ok s) =
      Fintype.piFinset fun i : Fin 6 => Finset.univ.filter fun v : Byte =>
        charset.data.getD (v.val % len charset) 'A' = s.data.getD i.val 'A' := by
    ext b
    simp only [Finset.mem_filter, Finset.mem_univ, true_and, Fintype.mem_piFinset]
    exact generateOTP_eq_iff s hs b
  rw [hset, Fintype.card_piFinset]
  have hall : ∀ i : Fin 6, (Finset.univ.filter fun v : Byte =>
      charset.data.getD (v.val % len charset) 'A' = s.data.getD i.val 'A').card = 8 := by
    intro i
    apply charset_symbol_count
    have hi : i.val < s.data.length := by rw [hlen]; exact i.isLt
    rw [List.getD_eq_getElem _ _ hi]
    exact hmem _ (List.getElem_mem hi)
  rw [Finset.prod_congr rfl (fun i _ => hall i)]
  simp

theorem generateOTP_surjective (s : String) (hlen : s.length = 6)
    (hmem : ∀ c ∈ s.data, c ∈ charset.data) :
    ∃ b : Fin 6 → Byte, generateOTP (some b) = Except.ok s := by
  have hidx : ∀ i : Fin 6, charset.data.indexOf (s.data.getD i.val 'A') < 256 := by
    intro i
    have : charset.data.indexOf (s.data.getD i.val 'A') ≤ charset.data.length :=
      List.indexOf_le_length
    rw [charset_data_length] at this
    omega
  refine ⟨fun i => ⟨charset.data.indexOf (s.data.getD i.val 'A'), hidx i⟩, ?_⟩
  rw [generateOTP_eq_iff s hlen]
  intro i
  have hn : i.val < s.data.length := by
    have : s.data.length = 6 := hlen
    rw [this]; exact i.isLt
  have hget : s.data.getD i.val 'A' = s.data[i.val] := List.getD_eq_getElem _ _ hn
  have hin : s.data[i.val] ∈ charset.data := hmem _ (List.getElem_mem hn)
  have hlt : charset.data.indexOf s.data[i.val] < charset.data.length :=
    List.indexOf_lt_length.mpr hin
  simp only [hget]
  have h32 : charset.data.indexOf s.data[i.val] % len charset =
      charset.data.indexOf s.data[i.val] := by
    rw [len_charset]
    rw [charset_data_length] at hlt
    exact Nat.mod_eq_of_lt hlt
  rw [h32, List.getD_eq_getElem _ _ hlt]
  exact List.indexOf_get hlt

/-! ## The claims -/

/-- C1: for an email without a row, after a `Signup` that succeeds at time `t` with the
generated code `c`, and any requests in between that are neither for the email nor for
its tracking token, a `VerifyOTP` with `c` at a time up to `t + 15 min` (the database
working) answers 200 with `isVerified = true` and marks the row verified; a second
identical `VerifyOTP` answers 200 with `isVerified = true` (already verified) and leaves
the table unchanged. -/
theorem Signup_then_VerifyOTP (lib : Lib) (e : EarlyStartController) (env : Env) (db : DB)
    (req : signupRequest) (c tok : String) (cs : List Call) (envV env2 : Env)
    (hwf : db.WF) (hfresh : db.byEmail req.Email = none)
    (hok : (Signup lib e env db req).resp.status = 200)
    (hc : generateOTP env.randOTP = Except.ok c)
    (hk : GenerateEngagementToken env.randToken = Except.ok tok)
    (hcs : ∀ call ∈ cs, call.avoids req.Email tok)
    (hrV : envV.dbReadErr = false) (hwV : envV.dbWriteErr = false)
    (htV : envV.now ≤ env.now + 15 * minute)
    (hr2 : env2.dbReadErr = false) :
    (VerifyOTP lib envV (run lib e (Signup lib e env db req).db cs) ⟨req.Email, c⟩).resp =
      ⟨200, Body.json [("message", Value.str "Email verified successfully!"),
                       ("email", Value.str req.Email),
                       ("isVerified", Value.bool true),
                       ("otpVerifiedAt", Value.time envV.now)]⟩ ∧
    ((VerifyOTP lib envV (run lib e (Signup lib e env db req).db cs)
      ⟨req.Email, c⟩).db.byEmail req.Email).map (fun u => u.IsVerified) = some true ∧
    VerifyOTP lib env2
        (VerifyOTP lib envV (run lib e (Signup lib e env db req).db cs) ⟨req.Email, c⟩).db
        ⟨req.Email, c⟩ =
      ⟨(VerifyOTP lib envV (run lib e (Signup lib e env db req).db cs) ⟨req.Email, c⟩).db,
        ⟨200, Body.json [("message", Value.str "Email already verified"),
                         ("isVerified", Value.bool true)]⟩, []⟩ := by
  obtain ⟨hval, hr, hw, _, _, _, _, _⟩ := Signup_fresh_success lib e env db req hfresh hok
  obtain ⟨_, _, hwf1, r, hfr, h1, h2, h3, h4, _, h6, _, h8, _⟩ :=
    Signup_issue_row lib e env db req c tok hwf hval hr hw hc hk (Or.inl hfresh)
  have hfrun := run_avoids lib e req.Email r cs _ hwf1 hfr (h8 ▸ hcs)
  obtain ⟨b, hb⟩ : ∃ b, env.randOTP = some b := by
    cases h : env.randOTP with
    | none => rw [h] at hc; exact absurd hc (by simp [generateOTP])
    | some b => exact ⟨b, rfl⟩
  obtain ⟨hnorm, hlen, hlen6⟩ := generateOTP_normal lib b c (hb ▸ hc)
  have hbind := bindVerifyOTP_of_validSignup lib req c hval hlen6
  have hl : len (ToUpper lib (TrimSpace (verifyOTPRequest.mk req.Email c).OTP)) = 6 := by
    show len (ToUpper lib (TrimSpace c)) = 6
    rw [hnorm]; exact hlen
  have hm : ToUpper lib (TrimSpace (verifyOTPRequest.mk req.Email c).OTP) = r.OTPHash := by
    show ToUpper lib (TrimSpace c) = r.OTPHash
    rw [hnorm, h2]
  have hstep := VerifyOTP_match lib envV _ ⟨req.Email, c⟩ r _ hbind hl hrV hwV hfrun h6 h3 htV
    (by rw [h4]; decide) hm
  have hf2 : (VerifyOTP lib envV (run lib e (Signup lib e env db req).db cs)
      ⟨req.Email, c⟩).db.byEmail req.Email =
      some (stamp envV.now (markVerified envV.now r)) := by
    rw [hstep]
    show (DB.Updates _ envV r.ID (markVerified envV.now)).1.byEmail req.Email = _
    rw [byEmail_Updates _ envV r.ID (markVerified envV.now) hwV (fun _ => rfl), hfrun]
    simp
  refine ⟨by rw [hstep, ← h1]; rfl, by rw [hf2]; rfl, ?_⟩
  exact VerifyOTP_verified lib env2 _ ⟨req.Email, c⟩ _ hbind hl hr2 hf2 rfl

/-- Witness for `Signup_then_VerifyOTP`: `a@x.com` signs up on the empty table at time 0,
requests for `b@x.com` follow, and the code `AAAAAA` is submitted exactly 15 minutes after
the signup, then once more. -/
theorem Signup_then_VerifyOTP_witness :
    (VerifyOTP sampleLib (sampleEnv 900000000000)
      (run sampleLib sampleCtl
        (Signup sampleLib sampleCtl (sampleEnv 0) DB.empty ⟨"a@x.com", "", ""⟩).db
        sampleOtherCalls) ⟨"a@x.com", "AAAAAA"⟩).resp =
      ⟨200, Body.json [("message", Value.str "Email verified successfully!"),
                       ("email", Value.str "a@x.com"),
                       ("isVerified", Value.bool true),
                       ("otpVerifiedAt", Value.time (sampleEnv 900000000000).now)]⟩ ∧
    ((VerifyOTP sampleLib (sampleEnv 900000000000)
      (run sampleLib sampleCtl
        (Signup sampleLib sampleCtl (sampleEnv 0) DB.empty ⟨"a@x.com", "", ""⟩).db
        sampleOtherCalls) ⟨"a@x.com", "AAAAAA"⟩).db.byEmail "a@x.com").map
      (fun u => u.IsVerified) = some true ∧
    VerifyOTP sampleLib (sampleEnv 900000000001)
        (VerifyOTP sampleLib (sampleEnv 900000000000)
          (run sampleLib sampleCtl
            (Signup sampleLib sampleCtl (sampleEnv 0) DB.empty ⟨"a@x.com", "", ""⟩).db
            sampleOtherCalls) ⟨"a@x.com", "AAAAAA"⟩).db
        ⟨"a@x.com", "AAAAAA"⟩ =
      ⟨(VerifyOTP sampleLib (sampleEnv 900000000000)
          (run sampleLib sampleCtl
            (Signup sampleLib sampleCtl (sampleEnv 0) DB.empty ⟨"a@x.com", "", ""⟩).db
            sampleOtherCalls) ⟨"a@x.com", "AAAAAA"⟩).db,
        ⟨200, Body.json [("message", Value.str "Email already verified"),
                         ("isVerified", Value.bool true)]⟩, []⟩ :=
  Signup_then_VerifyOTP sampleLib sampleCtl (sampleEnv 0) DB.empty ⟨"a@x.com", "", ""⟩
    "AAAAAA" "AAAAAAAAAAAAAAAAAAAAAAAAAAAAAAAAAAAAAAAAAAA=" sampleOtherCalls
    (sampleEnv 900000000000) (sampleEnv 900000000001) (by decide) (by decide) (by decide)
    rfl rfl
    (by
      intro call hcall
      simp only [sampleOtherCalls, List.mem_cons, List.mem_singleton, List.mem_nil_iff,
        or_false] at hcall
      rcases hcall with rfl | rfl | rfl <;> simp only [Call.avoids] <;> decide)
    (by decide) (by decide) (by decide) (by decide)

/-- C2 (as stated, refuted): at the instant `now = expiry` an unverified row is not treated
as expired: the correct code is accepted with 200 and the row is marked verified. -/
theorem VerifyOTP_at_expiry_instant_counterexample :
    sampleUser.IsVerified = false ∧ sampleUser.OTPExpiresAt = some 900000000000 ∧
    (sampleEnv 900000000000).now = 900000000000 ∧
    VerifyOTP sampleLib (sampleEnv 900000000000) sampleDB ⟨"a@x.com", "AB3D9X"⟩ =
      ⟨⟨[{ sampleUser with UpdatedAt := 900000000000, IsVerified := true,
                           OTPVerifiedAt := some 900000000000, OTPHash := "",
                           OTPExpiresAt := none, OTPLastAttempt := none }], 2⟩,
       ⟨200, Body.json [("message", Value.str "Email verified successfully!"),
                        ("email", Value.str "a@x.com"),
                        ("isVerified", Value.bool true),
                        ("otpVerifiedAt", Value.time 900000000000)]⟩, []⟩ := by
  decide

/-- C2 (amended): for an unverified row and a well-formed request for its email, `VerifyOTP`
answers with the code-expired error (400) exactly when the row has no expiry or its expiry
is strictly before the current time, whether or not the submitted code equals the stored
one; in that case the table is unchanged, so the row is not marked verified. -/
theorem VerifyOTP_expired_iff (lib : Lib) (env : Env) (db : DB) (req : verifyOTPRequest)
    (user : EarlyStartUser)
    (hb : bindVerifyOTP lib req = true) (hl : len (ToUpper lib (TrimSpace req.OTP)) = 6)
    (hr : env.dbReadErr = false) (hf : db.byEmail req.Email = some user)
    (hv : user.IsVerified = false) :
    ((VerifyOTP lib env db req).resp =
        errorJSON 400 "Verification code has expired. Please request a new one." ↔
      (user.OTPExpiresAt = none ∨ ∃ t, user.OTPExpiresAt = some t ∧ t < env.now)) ∧
    ((user.OTPExpiresAt = none ∨ ∃ t, user.OTPExpiresAt = some t ∧ t < env.now) →
      (VerifyOTP lib env db req).db = db ∧
      (VerifyOTP lib env db req).db.byEmail req.Email = some user) := by
  have fwd : (user.OTPExpiresAt = none ∨ ∃ t, user.OTPExpiresAt = some t ∧ t < env.now) →
      VerifyOTP lib env db req = ⟨db, codeExpired, []⟩ :=
    VerifyOTP_expired lib env db req user hb hl hr hf hv
  refine ⟨⟨?_, fun hx => by rw [fwd hx]; rfl⟩, fun hx => by rw [fwd hx]; exact ⟨rfl, hf⟩⟩
  intro hresp
  by_contra hx
  rcases Option.eq_none_or_eq_some user.OTPExpiresAt with hn | ⟨t, hs⟩
  · exact hx (Or.inl hn)
  have ht : env.now ≤ t := not_lt.mp fun hlt => hx (Or.inr ⟨t, hs, hlt⟩)
  by_cases ha : maxOTPAttempts ≤ user.OTPAttempts
  · rw [VerifyOTP_too_many lib env db req user t hb hl hr hf hv hs ht ha] at hresp
    exact (by decide : tooManyAttempts ≠ codeExpired) hresp
  have ha : user.OTPAttempts < maxOTPAttempts := not_le.mp ha
  by_cases hm : ToUpper lib (TrimSpace req.OTP) = user.OTPHash
  · by_cases hw : env.dbWriteErr = true
    · rw [VerifyOTP_match_write_failed lib env db req user t hb hl hr hw hf hv hs ht ha hm]
        at hresp
      exact (by decide : serviceUnavailable ≠ codeExpired) hresp
    · rw [VerifyOTP_match lib env db req user t hb hl hr (by simpa using hw) hf hv hs ht ha hm]
        at hresp
      simp [verifiedOK, errorJSON] at hresp
  · rw [VerifyOTP_mismatch lib env db req user t hb hl hr hf hv hs ht ha hm] at hresp
    exact (by decide : invalidCode ≠ codeExpired) hresp

/-- Witness for `VerifyOTP_expired_iff`: one nanosecond after the expiry of `sampleUser`. -/
theorem VerifyOTP_expired_iff_witness :
    ((VerifyOTP sampleLib (sampleEnv 900000000001) sampleDB ⟨"a@x.com", "AB3D9X"⟩).resp =
        errorJSON 400 "Verification code has expired. Please request a new one." ↔
      (sampleUser.OTPExpiresAt = none ∨
        ∃ t, sampleUser.OTPExpiresAt = some t ∧ t < (sampleEnv 900000000001).now)) ∧
    ((sampleUser.OTPExpiresAt = none ∨
        ∃ t, sampleUser.OTPExpiresAt = some t ∧ t < (sampleEnv 900000000001).now) →
      (VerifyOTP sampleLib (sampleEnv 900000000001) sampleDB ⟨"a@x.com", "AB3D9X"⟩).db =
        sampleDB ∧
      (VerifyOTP sampleLib (sampleEnv 900000000001) sampleDB
        ⟨"a@x.com", "AB3D9X"⟩).db.byEmail "a@x.com" = some sampleUser) :=
  VerifyOTP_expired_iff sampleLib (sampleEnv 900000000001) sampleDB ⟨"a@x.com", "AB3D9X"⟩
    sampleUser (by decide) (by decide) (by decide) (by decide) (by decide)

/-- C3: for an unverified, unexpired row with no failed attempt, five `VerifyOTP` requests
with well-formed codes that do not match the stored code are each answered with the
invalid-code error and each add one to the attempt counter; a sixth request, whatever code
it submits (the stored one included), is answered with the too-many-attempts error (429),
leaves the table unchanged and the row unverified. -/
theorem VerifyOTP_locked_after_five_mismatches (lib : Lib) (db : DB) (email : String)
    (user : EarlyStartUser) (t : Time) (calls : List (Env × verifyOTPRequest))
    (env6 : Env) (req6 : verifyOTPRequest)
    (hf : db.byEmail email = some user) (hv : user.IsVerified = false)
    (hx : user.OTPExpiresAt = some t) (h0 : user.OTPAttempts = 0)
    (hlen : calls.length = 5)
    (hall : ∀ c ∈ calls, c.2.Email = email ∧ bindVerifyOTP lib c.2 = true ∧
      len (ToUpper lib (TrimSpace c.2.OTP)) = 6 ∧
      ToUpper lib (TrimSpace c.2.OTP) ≠ user.OTPHash ∧
      c.1.now ≤ t ∧ c.1.dbReadErr = false ∧ c.1.dbWriteErr = false)
    (h6e : req6.Email = email) (h6b : bindVerifyOTP lib req6 = true)
    (h6l : len (ToUpper lib (TrimSpace req6.OTP)) = 6)
    (h6t : env6.now ≤ t) (h6r : env6.dbReadErr = false) :
    (verifyAll lib db calls).2 =
      List.replicate 5 (errorJSON 400 "Invalid verification code") ∧
    (∀ k : Nat, k ≤ 5 →
      ((verifyAll lib db (calls.take k)).1.byEmail email).map (fun u => u.OTPAttempts) =
        some (k : Int)) ∧
    VerifyOTP lib env6 (verifyAll lib db calls).1 req6 =
      ⟨(verifyAll lib db calls).1,
        errorJSON 429 "Too many failed attempts. Please request a new code.", []⟩ ∧
    ((verifyAll lib db calls).1.byEmail email).map (fun u => u.IsVerified) = some false := by
  obtain ⟨hresp, user1, hf1, hv1, hx1, _, ha1⟩ :=
    verifyAll_mismatches lib email t user.OTPHash calls db user hf hv hx rfl
      (by rw [h0, hlen]; decide) hall
  refine ⟨by rw [hresp, hlen]; rfl, ?_, ?_, by rw [hf1, Option.map_some', hv1]⟩
  · intro k hk
    have hkl : (calls.take k).length = k := by
      rw [List.length_take, hlen]; exact Nat.min_eq_left hk
    obtain ⟨_, u, hu, _, _, _, hua⟩ :=
      verifyAll_mismatches lib email t user.OTPHash (calls.take k) db user hf hv hx rfl
        (by rw [h0, hkl]; omega) (fun c hc => hall c (List.mem_of_mem_take hc))
    rw [hu, Option.map_some', hua, h0, hkl, zero_add]
  · exact VerifyOTP_too_many lib env6 _ req6 user1 t h6b h6l h6r (h6e ▸ hf1) hv1 hx1 h6t
      (by rw [ha1, h0, hlen]; decide)

/-- Witness for `VerifyOTP_locked_after_five_mismatches`: five times `ZZZZZZ` against
`sampleUser`, then the stored code `AB3D9X`. -/
theorem VerifyOTP_locked_after_five_mismatches_witness :
    (verifyAll sampleLib sampleDB sampleWrongCalls).2 =
      List.replicate 5 (errorJSON 400 "Invalid verification code") ∧
    (∀ k : Nat, k ≤ 5 →
      ((verifyAll sampleLib sampleDB (sampleWrongCalls.take k)).1.byEmail "a@x.com").map
        (fun u => u.OTPAttempts) = some (k : Int)) ∧
    VerifyOTP sampleLib (sampleEnv 6) (verifyAll sampleLib sampleDB sampleWrongCalls).1
        ⟨"a@x.com", "AB3D9X"⟩ =
      ⟨(verifyAll sampleLib sampleDB sampleWrongCalls).1,
        errorJSON 429 "Too many failed attempts. Please request a new code.", []⟩ ∧
    ((verifyAll sampleLib sampleDB sampleWrongCalls).1.byEmail "a@x.com").map
      (fun u => u.IsVerified) = some false :=
  VerifyOTP_locked_after_five_mismatches sampleLib sampleDB "a@x.com" sampleUser 900000000000
    sampleWrongCalls (sampleEnv 6) ⟨"a@x.com", "AB3D9X"⟩ (by decide) (by decide) (by decide)
    (by decide) (by decide) (by decide) (by decide) (by decide) (by decide) (by decide)
    (by decide)

/-- C4: for a valid request whose email has an unverified row with a last-attempt timestamp
less than 60 seconds before the current time, `Signup` answers with the rate-limited error
(429), sends no email and leaves the table unchanged; in particular a second `Signup`
less than 60 seconds after a `Signup` that issued a code for the same email is
rate-limited. -/
theorem Signup_rate_limited (lib : Lib) (e : EarlyStartController) (req : signupRequest)
    (env : Env) (db : DB) (existing : EarlyStartUser) (t : Time) (env1 env2 : Env) (db0 : DB)
    (hval : validSignup lib req = true)
    (hr : env.dbReadErr = false) (hf : db.byEmail req.Email = some existing)
    (hv : existing.IsVerified = false) (hl : existing.OTPLastAttempt = some t)
    (hc : env.now - t < 60 * second)
    (hwf : db0.WF)
    (h1 : (Signup lib e env1 db0 req).resp = messageJSON 200
      "If this email is valid, a verification code has been sent. Please check your email.")
    (hw1 : env1.dbWriteErr = false) (hr2 : env2.dbReadErr = false)
    (hc2 : env2.now - env1.now < 60 * second) :
    Signup lib e env db req =
      ⟨db, errorJSON 429 "Please wait before requesting a new code", []⟩ ∧
    Signup lib e env2 (Signup lib e env1 db0 req).db req =
      ⟨(Signup lib e env1 db0 req).db,
        errorJSON 429 "Please wait before requesting a new code", []⟩ := by
  refine ⟨Signup_cooldown lib e env db req existing t hval hr hf hv hl (minute_eq ▸ hc), ?_⟩
  obtain ⟨_, hr1, otp, tok, ho, hk, hcase⟩ := Signup_issued lib e env1 db0 req hwf h1
  have hcase2 : db0.byEmail req.Email = none ∨
      ∃ existing, db0.byEmail req.Email = some existing ∧ existing.IsVerified = false ∧
        pastCooldown existing env1.now := by
    rcases hcase with ⟨hn, _, _⟩ | ⟨ex, h2, h3, h4, _⟩
    · exact Or.inl hn
    · exact Or.inr ⟨ex, h2, h3, h4⟩
  obtain ⟨_, _, _, r, hr3, hiss⟩ :=
    Signup_issue_row lib e env1 db0 req otp tok hwf hval hr1 hw1 ho hk hcase2
  exact Signup_cooldown lib e env2 _ req r env1.now hval hr2 hr3 hiss.2.2.2.2.2.1
    hiss.2.2.2.2.1 (minute_eq ▸ hc2)

/-- Witness for `Signup_rate_limited`: `sampleUser` was last attempted at time 0 and signs
up again at 59 seconds; `a@x.com` signs up on the empty table at time 0 and at 59
seconds. -/
theorem Signup_rate_limited_witness :
    Signup sampleLib sampleCtl (sampleEnv 59000000000) sampleDB ⟨"a@x.com", "", ""⟩ =
      ⟨sampleDB, errorJSON 429 "Please wait before requesting a new code", []⟩ ∧
    Signup sampleLib sampleCtl (sampleEnv 59000000000)
        (Signup sampleLib sampleCtl (sampleEnv 0) DB.empty ⟨"a@x.com", "", ""⟩).db
        ⟨"a@x.com", "", ""⟩ =
      ⟨(Signup sampleLib sampleCtl (sampleEnv 0) DB.empty ⟨"a@x.com", "", ""⟩).db,
        errorJSON 429 "Please wait before requesting a new code", []⟩ :=
  Signup_rate_limited sampleLib sampleCtl ⟨"a@x.com", "", ""⟩ (sampleEnv 59000000000) sampleDB
    sampleUser 0 (sampleEnv 0) (sampleEnv 59000000000) DB.empty (by decide) (by decide)
    (by decide) (by decide) (by decide) (by decide) (by decide) (by decide) (by decide)
    (by decide) (by decide)

/-- C5 (as stated, refuted): `sampleUser` holds the code `AB3D9X` and signs up again at 60
seconds, which issues `BBBBBB` with expiry at 960 seconds. Submitted at 961 seconds, the
previous code is answered with the code-expired error, not the invalid-code error. And when
the database refuses the update of that signup, `Signup` still answers 200 and mails
`BBBBBB`, while the row keeps the code `AB3D9X`. -/
theorem Signup_previous_code_counterexample :
    sampleDB.byEmail "a@x.com" = some sampleUser ∧ sampleUser.OTPHash = "AB3D9X" ∧
    ((Signup sampleLib sampleCtl (sampleEnvB 60000000000) sampleDB
      ⟨"a@x.com", "", ""⟩).db.byEmail "a@x.com").map
      (fun u => (u.OTPHash, u.OTPExpiresAt)) = some ("BBBBBB", some 960000000000) ∧
    (VerifyOTP sampleLib (sampleEnv 961000000000)
      (Signup sampleLib sampleCtl (sampleEnvB 60000000000) sampleDB ⟨"a@x.com", "", ""⟩).db
      ⟨"a@x.com", "AB3D9X"⟩).resp =
      errorJSON 400 "Verification code has expired. Please request a new one." ∧
    Signup sampleLib sampleCtl { sampleEnvB 60000000000 with dbWriteErr := true } sampleDB
        ⟨"a@x.com", "", ""⟩ =
      ⟨sampleDB, messageJSON 200
          "If this email is valid, a verification code has been sent. Please check your email.",
        [⟨"a@x.com", "BBBBBB", "AAAAAAAAAAAAAAAAAAAAAAAAAAAAAAAAAAAAAAAAAAA=", true⟩]⟩ := by
  decide

/-- C5 (amended): for a valid request whose email has no row, or an unverified row whose
last attempt is at least 60 seconds old, `Signup` at time `now` (the random source working
and the database accepting the write) answers with the code-sent message and leaves
exactly one row for the email, with the new code, expiry `now + 15 min`, attempt counter 0,
last attempt `now`, the dispatched flag telling whether the send returned no error, the new
token and cleared engagement fields; a `VerifyOTP` afterwards with another generated code
(the previous one, when it differs) fails with 400: with the invalid-code error up to the
expiry of the new code, with the code-expired error after it. -/
theorem Signup_issues_fresh_code (lib : Lib) (e : EarlyStartController) (env : Env) (db : DB)
    (req : signupRequest) (otp tok : String) (b : Fin 6 → Byte) (old : String) (envV : Env)
    (hwf : db.WF) (hval : validSignup lib req = true)
    (hr : env.dbReadErr = false) (hw : env.dbWriteErr = false)
    (ho : generateOTP env.randOTP = Except.ok otp)
    (hk : GenerateEngagementToken env.randToken = Except.ok tok)
    (hcase : db.byEmail req.Email = none ∨
      ∃ existing t, db.byEmail req.Email = some existing ∧ existing.IsVerified = false ∧
        existing.OTPLastAttempt = some t ∧ 60 * second ≤ env.now - t)
    (hold : generateOTP (some b) = Except.ok old) (hne : old ≠ otp) :
    (Signup lib e env db req).resp = messageJSON 200
      "If this email is valid, a verification code has been sent. Please check your email." ∧
    ((Signup lib e env db req).db.rows.filter fun u => u.Email == req.Email).length = 1 ∧
    (∃ r, (Signup lib e env db req).db.byEmail req.Email = some r ∧
      r.OTPHash = otp ∧ r.OTPExpiresAt = some (env.now + 15 * minute) ∧ r.OTPAttempts = 0 ∧
      r.OTPLastAttempt = some env.now ∧ r.IsVerified = false ∧
      (r.EmailSent = true ↔
        ∃ es, e.EmailService = some es ∧
          es.SendOTPEmail env req.Email otp tok = Except.ok ()) ∧
      r.EngagementToken = tok ∧ r.ReadCount = 0 ∧ r.ReadAt = none ∧ r.LastReadAt = none ∧
      r.ReaderIP = "" ∧ r.ReaderClient = "") ∧
    (VerifyOTP lib envV (Signup lib e env db req).db ⟨req.Email, old⟩).resp.status = 400 ∧
    (envV.now ≤ env.now + 15 * minute →
      (VerifyOTP lib envV (Signup lib e env db req).db ⟨req.Email, old⟩).resp =
        errorJSON 400 "Invalid verification code") ∧
    (env.now + 15 * minute < envV.now → envV.dbReadErr = false →
      (VerifyOTP lib envV (Signup lib e env db req).db ⟨req.Email, old⟩).resp =
        errorJSON 400 "Verification code has expired. Please request a new one.") := by
  have hcase2 : db.byEmail req.Email = none ∨
      ∃ existing, db.byEmail req.Email = some existing ∧ existing.IsVerified = false ∧
        pastCooldown existing env.now := by
    rcases hcase with hn | ⟨ex, t, h2, h3, h4, h5⟩
    · exact Or.inl hn
    · exact Or.inr ⟨ex, h2, h3, Or.inr ⟨t, h4, minute_eq ▸ h5⟩⟩
  obtain ⟨hresp, _, hwf1, r, hfr, h1, h2, h3, h4, h5, h6, h7, h8, h9, h10, h11, h12, h13⟩ :=
    Signup_issue_row lib e env db req otp tok hwf hval hr hw ho hk hcase2
  have hsent : (sendOutcome e env req.Email otp tok).getD false = true ↔
      ∃ es, e.EmailService = some es ∧
        es.SendOTPEmail env req.Email otp tok = Except.ok () := by
    unfold sendOutcome
    cases hs : e.EmailService with
    | none => simp
    | some es =>
      cases hres : es.SendOTPEmail env req.Email otp tok with
      | ok u => simp [hres]
      | error m => simp [hres]
  obtain ⟨hnorm, hlen, hlen6⟩ := generateOTP_normal lib b old hold
  have hb := bindVerifyOTP_of_validSignup lib req old hval hlen6
  have hl : len (ToUpper lib (TrimSpace (verifyOTPRequest.mk req.Email old).OTP)) = 6 := by
    show len (ToUpper lib (TrimSpace old)) = 6
    rw [hnorm]; exact hlen
  have hm : ToUpper lib (TrimSpace (verifyOTPRequest.mk req.Email old).OTP) ≠ r.OTPHash := by
    show ToUpper lib (TrimSpace old) ≠ r.OTPHash
    rw [hnorm, h2]; exact hne
  have hverify : (VerifyOTP lib envV (Signup lib e env db req).db ⟨req.Email, old⟩).resp =
      invalidCode ∨ (¬ envV.now ≤ env.now + 15 * minute ∧
        (VerifyOTP lib envV (Signup lib e env db req).db ⟨req.Email, old⟩).resp =
          codeExpired) := by
    by_cases hrV : envV.dbReadErr = true
    · left; rw [VerifyOTP_not_found lib envV _ _ hb (Or.inl hrV)]
    have hrV : envV.dbReadErr = false := by simpa using hrV
    by_cases ht : envV.now ≤ env.now + otpValidityPeriod
    · left
      rw [VerifyOTP_mismatch lib envV _ _ r _ hb hl hrV hfr h6 h3 ht (by rw [h4]; decide) hm]
    · right
      refine ⟨ht, ?_⟩
      rw [VerifyOTP_expired lib envV _ _ r hb hl hrV hfr h6
        (Or.inr ⟨_, h3, not_le.mp ht⟩)]
  refine ⟨hresp, filter_email_length_one hwf1 hfr,
    ⟨r, hfr, h2, h3, h4, h5, h6, by rw [h7]; exact hsent, h8, h9, h10, h11, h12, h13⟩, ?_, ?_,
    ?_⟩
  · rcases hverify with hv | ⟨_, hv⟩ <;> rw [hv] <;> rfl
  · intro ht
    rcases hverify with hv | ⟨hnt, _⟩
    · exact hv
    · exact absurd ht hnt
  · intro ht hrV
    rw [VerifyOTP_expired lib envV _ _ r hb hl hrV hfr h6 (Or.inr ⟨_, h3, ht⟩)]
    rfl

/-- Witness for `Signup_issues_fresh_code`: `sampleUser`, last attempted at time 0, signs up
again at 60 seconds and receives `BBBBBB`; the generated code `AAAAAA` is then refused. -/
theorem Signup_issues_fresh_code_witness :
    (Signup sampleLib sampleCtl (sampleEnvB 60000000000) sampleDB ⟨"a@x.com", "", ""⟩).resp =
      messageJSON 200
        "If this email is valid, a verification code has been sent. Please check your email." ∧
    ((Signup sampleLib sampleCtl (sampleEnvB 60000000000) sampleDB
      ⟨"a@x.com", "", ""⟩).db.rows.filter fun u => u.Email == "a@x.com").length = 1 ∧
    (∃ r, (Signup sampleLib sampleCtl (sampleEnvB 60000000000) sampleDB
        ⟨"a@x.com", "", ""⟩).db.byEmail "a@x.com" = some r ∧
      r.OTPHash = "BBBBBB" ∧ r.OTPExpiresAt = some ((sampleEnvB 60000000000).now + 15 * minute) ∧
      r.OTPAttempts = 0 ∧ r.OTPLastAttempt = some (sampleEnvB 60000000000).now ∧
      r.IsVerified = false ∧
      (r.EmailSent = true ↔
        ∃ es, sampleCtl.EmailService = some es ∧
          es.SendOTPEmail (sampleEnvB 60000000000) "a@x.com" "BBBBBB"
            "AAAAAAAAAAAAAAAAAAAAAAAAAAAAAAAAAAAAAAAAAAA=" = Except.ok ()) ∧
      r.EngagementToken = "AAAAAAAAAAAAAAAAAAAAAAAAAAAAAAAAAAAAAAAAAAA=" ∧ r.ReadCount = 0 ∧
      r.ReadAt = none ∧ r.LastReadAt = none ∧ r.ReaderIP = "" ∧ r.ReaderClient = "") ∧
    (VerifyOTP sampleLib (sampleEnv 61000000000)
      (Signup sampleLib sampleCtl (sampleEnvB 60000000000) sampleDB ⟨"a@x.com", "", ""⟩).db
      ⟨"a@x.com", "AAAAAA"⟩).resp.status = 400 ∧
    ((sampleEnv 61000000000).now ≤ (sampleEnvB 60000000000).now + 15 * minute →
      (VerifyOTP sampleLib (sampleEnv 61000000000)
        (Signup sampleLib sampleCtl (sampleEnvB 60000000000) sampleDB ⟨"a@x.com", "", ""⟩).db
        ⟨"a@x.com", "AAAAAA"⟩).resp = errorJSON 400 "Invalid verification code") ∧
    ((sampleEnvB 60000000000).now + 15 * minute < (sampleEnv 61000000000).now →
      (sampleEnv 61000000000).dbReadErr = false →
      (VerifyOTP sampleLib (sampleEnv 61000000000)
        (Signup sampleLib sampleCtl (sampleEnvB 60000000000) sampleDB ⟨"a@x.com", "", ""⟩).db
        ⟨"a@x.com", "AAAAAA"⟩).resp =
        errorJSON 400 "Verification code has expired. Please request a new one.") :=
  Signup_issues_fresh_code sampleLib sampleCtl (sampleEnvB 60000000000) sampleDB
    ⟨"a@x.com", "", ""⟩ "BBBBBB" "AAAAAAAAAAAAAAAAAAAAAAAAAAAAAAAAAAAAAAAAAAA=" (fun _ => 0)
    "AAAAAA" (sampleEnv 61000000000) (by decide) (by decide) (by decide) (by decide) rfl rfl
    (Or.inr ⟨sampleUser, 0, by decide, by decide, by decide, by decide⟩) rfl (by decide)

/-- C6 (the code at the failing input): `Signup` for an email whose row is verified and
`Signup` for an email without a row both answer 200, but with different message bodies, so
the response tells the two apart. -/
theorem Signup_verified_response_differs :
    (Signup sampleLib sampleCtl (sampleEnv 100) ⟨[sampleVerified], 2⟩ ⟨"v@x.com", "", ""⟩).resp =
      ⟨200, Body.json [("message",
        Value.str "If this email is valid, a verification code has been sent")]⟩ ∧
    (Signup sampleLib sampleCtl (sampleEnv 100) DB.empty ⟨"v@x.com", "", ""⟩).resp =
      ⟨200, Body.json [("message", Value.str
        "If this email is valid, a verification code has been sent. Please check your email.")]⟩ ∧
    (Signup sampleLib sampleCtl (sampleEnv 100) ⟨[sampleVerified], 2⟩ ⟨"v@x.com", "", ""⟩).resp ≠
      (Signup sampleLib sampleCtl (sampleEnv 100) DB.empty ⟨"v@x.com", "", ""⟩).resp := by
  decide

/-- C7: for a request with a valid email and a six-character code, the response of
`VerifyOTP` when the email has no row equals its response when an unverified, unexpired
row with fewer than five failed attempts exists and the code does not match: both are 400
with the message `Invalid verification code`. -/
theorem VerifyOTP_no_record_indistinguishable (lib : Lib) (env1 env2 : Env) (db1 db2 : DB)
    (req : verifyOTPRequest) (user : EarlyStartUser) (t : Time)
    (hb : bindVerifyOTP lib req = true)
    (h1 : db1.byEmail req.Email = none)
    (h2 : db2.byEmail req.Email = some user)
    (hv : user.IsVerified = false) (hx : user.OTPExpiresAt = some t) (ht : env2.now ≤ t)
    (ha : user.OTPAttempts < 5)
    (hm : ToUpper lib (TrimSpace req.OTP) ≠ user.OTPHash) :
    (VerifyOTP lib env1 db1 req).resp = (VerifyOTP lib env2 db2 req).resp ∧
    (VerifyOTP lib env1 db1 req).resp = errorJSON 400 "Invalid verification code" := by
  have e1 : (VerifyOTP lib env1 db1 req).resp = invalidCode := by
    rw [VerifyOTP_not_found lib env1 db1 req hb (Or.inr h1)]
  have e2 : (VerifyOTP lib env2 db2 req).resp = invalidCode := by
    by_cases hl : len (ToUpper lib (TrimSpace req.OTP)) = 6
    · by_cases hr : env2.dbReadErr = true
      · rw [VerifyOTP_not_found lib env2 db2 req hb (Or.inl hr)]
      · rw [VerifyOTP_mismatch lib env2 db2 req user t hb hl (by simpa using hr) h2 hv hx ht
          ha hm]
    · rw [VerifyOTP_bad_length lib env2 db2 req hb hl]
  exact ⟨e1.trans e2.symm, e1⟩

/-- Witness for `VerifyOTP_no_record_indistinguishable`: the wrong code `ZZZZZZ` against the
empty table and against `sampleDB`. -/
theorem VerifyOTP_no_record_indistinguishable_witness :
    (VerifyOTP sampleLib (sampleEnv 1) DB.empty ⟨"a@x.com", "ZZZZZZ"⟩).resp =
      (VerifyOTP sampleLib (sampleEnv 2) sampleDB ⟨"a@x.com", "ZZZZZZ"⟩).resp ∧
    (VerifyOTP sampleLib (sampleEnv 1) DB.empty ⟨"a@x.com", "ZZZZZZ"⟩).resp =
      errorJSON 400 "Invalid verification code" :=
  VerifyOTP_no_record_indistinguishable sampleLib (sampleEnv 1) (sampleEnv 2) DB.empty sampleDB
    ⟨"a@x.com", "ZZZZZZ"⟩ sampleUser 900000000000 (by decide) (by decide) (by decide)
    (by decide) (by decide) (by decide) (by decide) (by decide)

/-- C8 (as stated, refuted): the stored code `AB3D9X` surrounded by whitespace has the
stored code as its trimmed, upper-cased form, of length 6, and is still rejected: the
request binding answers 400 `Invalid request` and the row stays unverified. -/
theorem VerifyOTP_padded_code_counterexample :
    ToUpper sampleLib (TrimSpace " AB3D9X ") = sampleUser.OTPHash ∧
    len (ToUpper sampleLib (TrimSpace " AB3D9X ")) = 6 ∧
    VerifyOTP sampleLib (sampleEnv 1) sampleDB ⟨"a@x.com", " AB3D9X "⟩ =
      ⟨sampleDB, errorJSON 400 "Invalid request", []⟩ ∧
    sampleDB.byEmail "a@x.com" = some sampleUser ∧ sampleUser.IsVerified = false := by
  decide

/-- C8 (amended): `VerifyOTP` compares the submitted code after normalisation (trim, then
upper case), for submissions of exactly six characters. For an unverified, unexpired row
with fewer than five failed attempts and a stored code of six bytes: a six-character
submission whose normalised form equals the stored code is accepted and verifies the row;
a submission that is not six characters long is rejected by the request binding with 400
`Invalid request`; a six-character submission whose normalised form is not six bytes long
is rejected with 400 `Invalid verification code`. -/
theorem VerifyOTP_normalised_match (lib : Lib) (env : Env) (db : DB) (req : verifyOTPRequest)
    (user : EarlyStartUser) (t : Time)
    (hem : (req.Email != "" && lib.validatorEmail req.Email) = true)
    (hr : env.dbReadErr = false) (hw : env.dbWriteErr = false)
    (hf : db.byEmail req.Email = some user)
    (hv : user.IsVerified = false) (hx : user.OTPExpiresAt = some t) (ht : env.now ≤ t)
    (ha : user.OTPAttempts < 5) (hc6 : len user.OTPHash = 6) :
    (req.OTP.length = 6 → ToUpper lib (TrimSpace req.OTP) = user.OTPHash →
      (VerifyOTP lib env db req).resp =
        ⟨200, Body.json [("message", Value.str "Email verified successfully!"),
                         ("email", Value.str user.Email),
                         ("isVerified", Value.bool true),
                         ("otpVerifiedAt", Value.time env.now)]⟩ ∧
      ((VerifyOTP lib env db req).db.byEmail req.Email).map
        (fun u => (u.IsVerified, u.OTPHash)) = some (true, "")) ∧
    (req.OTP.length ≠ 6 →
      VerifyOTP lib env db req = ⟨db, errorJSON 400 "Invalid request", []⟩) ∧
    (req.OTP.length = 6 → len (ToUpper lib (TrimSpace req.OTP)) ≠ 6 →
      VerifyOTP lib env db req = ⟨db, errorJSON 400 "Invalid verification code", []⟩) := by
  have hbind : req.OTP.length = 6 → bindVerifyOTP lib req = true := by
    intro h6
    have hne : req.OTP ≠ "" := by
      intro h0
      rw [h0] at h6
      exact absurd h6 (by decide)
    simp [bindVerifyOTP, hem, h6, hne]
  refine ⟨?_, ?_, ?_⟩
  · intro h6 hm
    have hl : len (ToUpper lib (TrimSpace req.OTP)) = 6 := hm ▸ hc6
    rw [VerifyOTP_match lib env db req user t (hbind h6) hl hr hw hf hv hx ht ha hm]
    refine ⟨rfl, ?_⟩
    show ((db.Updates env user.ID (markVerified env.now)).1.byEmail req.Email).map _ = _
    rw [byEmail_Updates db env user.ID (markVerified env.now) hw (fun _ => rfl), hf]
    simp [stamp, markVerified]
  · intro h6
    apply VerifyOTP_bad_binding
    simp [bindVerifyOTP, h6]
  · intro h6 hl
    exact VerifyOTP_bad_length lib env db req (hbind h6) hl

/-- Witness for `VerifyOTP_normalised_match`: the stored code `AB3D9X` of `sampleUser`
submitted in lower case. -/
theorem VerifyOTP_normalised_match_witness :
    ("ab3d9x".length = 6 → ToUpper sampleLib (TrimSpace "ab3d9x") = sampleUser.OTPHash →
      (VerifyOTP sampleLib (sampleEnv 7) sampleDB ⟨"a@x.com", "ab3d9x"⟩).resp =
        ⟨200, Body.json [("message", Value.str "Email verified successfully!"),
                         ("email", Value.str sampleUser.Email),
                         ("isVerified", Value.bool true),
                         ("otpVerifiedAt", Value.time (sampleEnv 7).now)]⟩ ∧
      ((VerifyOTP sampleLib (sampleEnv 7) sampleDB ⟨"a@x.com", "ab3d9x"⟩).db.byEmail
        "a@x.com").map (fun u => (u.IsVerified, u.OTPHash)) = some (true, "")) ∧
    ("ab3d9x".length ≠ 6 →
      VerifyOTP sampleLib (sampleEnv 7) sampleDB ⟨"a@x.com", "ab3d9x"⟩ =
        ⟨sampleDB, errorJSON 400 "Invalid request", []⟩) ∧
    ("ab3d9x".length = 6 → len (ToUpper sampleLib (TrimSpace "ab3d9x")) ≠ 6 →
      VerifyOTP sampleLib (sampleEnv 7) sampleDB ⟨"a@x.com", "ab3d9x"⟩ =
        ⟨sampleDB, errorJSON 400 "Invalid verification code", []⟩) :=
  VerifyOTP_normalised_match sampleLib (sampleEnv 7) sampleDB ⟨"a@x.com", "ab3d9x"⟩ sampleUser
    900000000000 (by decide) (by decide) (by decide) (by decide) (by decide) (by decide)
    (by decide) (by decide) (by decide)

/-- C9: in every table reachable from the empty one by `Signup`, `VerifyOTP` and
`TrackEngagement` requests, a verified row has an empty code, no expiry and attempt counter
0; and verified is terminal: after any further requests the row with the same key and email
is still verified and still has an empty code. -/
theorem verified_is_cleared_and_terminal (lib : Lib) (e : EarlyStartController)
    (cs cs2 : List Call) :
    (∀ r ∈ (run lib e DB.empty cs).rows, r.IsVerified = true →
      r.OTPHash = "" ∧ r.OTPExpiresAt = none ∧ r.OTPAttempts = 0) ∧
    (∀ r ∈ (run lib e DB.empty cs).rows, r.IsVerified = true →
      ∃ r2 ∈ (run lib e (run lib e DB.empty cs) cs2).rows,
        r2.ID = r.ID ∧ r2.Email = r.Email ∧ r2.IsVerified = true ∧ r2.OTPHash = "") := by
  have hwf := run_WF lib e cs DB.empty WF_empty
  have hinv : VerifiedCleared (run lib e DB.empty cs) :=
    run_VerifiedCleared lib e cs DB.empty WF_empty (fun r hr => absurd hr (List.not_mem_nil r))
  refine ⟨hinv, ?_⟩
  intro r hr hv
  obtain ⟨r2, hr2, hid, hem, hv2⟩ := run_verified_stays lib e cs2 _ r hwf hr hv
  have hinv2 := run_VerifiedCleared lib e cs2 _ hwf hinv
  exact ⟨r2, hr2, hid, hem, hv2, (hinv2 r2 hr2 hv2).1⟩

/-- Witness for `verified_is_cleared_and_terminal`: the table after a signup and its
verification holds a verified row, and a later signup, a wrong code and an open for the
same email leave it verified. -/
theorem verified_is_cleared_and_terminal_witness :
    (∃ r ∈ (run sampleLib sampleCtl DB.empty sampleVerifyCalls).rows, r.IsVerified = true) ∧
    (∀ r ∈ (run sampleLib sampleCtl DB.empty sampleVerifyCalls).rows, r.IsVerified = true →
      r.OTPHash = "" ∧ r.OTPExpiresAt = none ∧ r.OTPAttempts = 0) ∧
    (∀ r ∈ (run sampleLib sampleCtl DB.empty sampleVerifyCalls).rows, r.IsVerified = true →
      ∃ r2 ∈ (run sampleLib sampleCtl (run sampleLib sampleCtl DB.empty sampleVerifyCalls)
          sampleLaterCalls).rows,
        r2.ID = r.ID ∧ r2.Email = r.Email ∧ r2.IsVerified = true ∧ r2.OTPHash = "") :=
  ⟨by decide, verified_is_cleared_and_terminal sampleLib sampleCtl sampleVerifyCalls
    sampleLaterCalls⟩

/-- C10 (as stated, refuted): the alphabet of `generateOTP` has 32 distinct symbols, not
33; already the code generated from six zero bytes is drawn from these 32. -/
theorem generateOTP_alphabet_size_counterexample :
    charset.data.Nodup ∧ charset.data.length = 32 ∧ ¬ charset.data.length = 33 ∧
      generateOTP (some fun _ => 0) = Except.ok "AAAAAA" := by
  refine ⟨by decide, by decide, by decide, rfl⟩

/-- C10 (amended): for every six random bytes `generateOTP` returns a string of exactly
six characters, each drawn from an alphabet of exactly 32 distinct symbols that contains
none of `I`, `O`, `0`, `1`; it returns an error, and no code, exactly when the random
source fails. -/
theorem generateOTP_spec (b : Fin 6 → Byte) (rnd : Option (Fin 6 → Byte)) :
    (∃ s, generateOTP (some b) = Except.ok s ∧ s.length = 6 ∧ ∀ c ∈ s.data, c ∈ charset.data) ∧
    charset.data.Nodup ∧ charset.data.length = 32 ∧
    'I' ∉ charset.data ∧ 'O' ∉ charset.data ∧ '0' ∉ charset.data ∧ '1' ∉ charset.data ∧
    ((∃ msg, generateOTP rnd = Except.error msg) ↔ rnd = none) := by
  refine ⟨⟨_, rfl, generateOTP_length b _ rfl, generateOTP_mem_charset b _ rfl⟩, by decide,
    by decide, by decide, by decide, by decide, by decide, ?_⟩
  cases rnd with
  | none => simp [generateOTP]
  | some r => simp [generateOTP]

/-- C11 (the code on every input): for every 32 random bytes `GenerateEngagementToken`
returns the padded URL-safe base64 encoding, a string of 44 characters: 43 symbols of the
URL-safe alphabet followed by the padding character `=`, which is not in that alphabet; on
32 zero bytes it returns 43 times `A` and `=`. -/
theorem GenerateEngagementToken_padded (b : Fin 32 → Byte) :
    (∃ s p, GenerateEngagementToken (some b) = Except.ok s ∧ s.data = p ++ ['='] ∧
      p.length = 43 ∧ (∀ c ∈ p, c ∈ encodeURL.data) ∧ s.length = 44 ∧ s.length ≠ 43) ∧
    '=' ∉ encodeURL.data ∧
    GenerateEngagementToken (some fun _ => 0) =
      Except.ok "AAAAAAAAAAAAAAAAAAAAAAAAAAAAAAAAAAAAAAAAAAA=" := by
  refine ⟨?_, by decide, rfl⟩
  obtain ⟨p, hp, hlen, hmem⟩ :=
    EncodeToString_rem_two 10 (List.ofFn fun i : Fin 32 => (b i).val) (by simp)
  refine ⟨_, p, rfl, hp, hlen, hmem, ?_, ?_⟩
  · show (EncodeToString _).length = 44
    rw [hp, List.length_append, hlen]; rfl
  · show (EncodeToString _).length ≠ 43
    rw [hp, List.length_append, hlen]; decide

/-- C12: for every requested filename, every table and every outcome of the database,
`TrackEngagement` answers 200 with content type `image/png` and the same 64 bytes: the
response when the token matches no row (or the query fails) is identical to the response
when the token matches a row. -/
theorem TrackEngagement_fixed_response (env env2 : Env) (db db2 : DB)
    (filename filename2 : String) :
    (TrackEngagement env db filename).resp =
      ⟨200, Body.data "image/png"
        [0x89, 0x50, 0x4E, 0x47, 0x0D, 0x0A, 0x1A, 0x0A,
         0x00, 0x00, 0x00, 0x0D, 0x49, 0x48, 0x44, 0x52,
         0x00, 0x00, 0x00, 0x01, 0x00, 0x00, 0x00, 0x01,
         0x08, 0x06, 0x00, 0x00, 0x00, 0x1F, 0x15, 0xC4,
         0x89, 0x00, 0x00, 0x00, 0x0A, 0x49, 0x44, 0x41,
         0x54, 0x78, 0x9C, 0x63, 0x00, 0x01, 0x00, 0x00,
         0x05, 0x00, 0x01, 0x0D, 0x0A, 0x2D, 0xB4, 0x00,
         0x00, 0x00, 0x00, 0x49, 0x45, 0x4E, 0x44, 0xAE]⟩ ∧
    (TrackEngagement env db filename).resp = (TrackEngagement env2 db2 filename2).resp ∧
    (TrackEngagement (sampleEnv 50) sampleDB "tok.png").resp =
      (TrackEngagement (sampleEnv 50) sampleDB "none.png").resp ∧
    (TrackEngagement (sampleEnv 50) sampleDB "tok.png").db ≠ sampleDB ∧
    (TrackEngagement (sampleEnv 50) sampleDB "none.png").db = sampleDB := by
  have key : ∀ (env : Env) (db : DB) (filename : String),
      (TrackEngagement env db filename).resp = ⟨200, Body.data "image/png" pixel⟩ := by
    intro env db filename
    rw [TrackEngagement_eq]
    split <;> rfl
  refine ⟨key env db filename, (key env db filename).trans (key env2 db2 filename2).symm,
    by decide, by decide, by decide⟩

/-- C13 (as stated, refuted): an open of the mail of `sampleUser` at time 50 changes the
update timestamp of the row, one of its identity fields, from 0 to 50; and an open of a row
whose open count is the largest 64-bit integer leaves the smallest one, not one more. -/
theorem TrackEngagement_update_stamp_counterexample :
    sampleDB.rows.find? (fun u => u.EngagementToken == TrimSuffix "tok.png" ".png") =
      some sampleUser ∧
    sampleUser.UpdatedAt = 0 ∧
    (TrackEngagement (sampleEnv 50) sampleDB "tok.png").db.rows.map (fun u => u.UpdatedAt) =
      [50] ∧
    sampleUserMaxReads.ReadCount = 9223372036854775807 ∧
    (TrackEngagement (sampleEnv 50) ⟨[sampleUserMaxReads], 2⟩ "tok.png").db.rows.map
      (fun u => u.ReadCount) = [-9223372036854775808] := by
  decide

/-- C13 (amended): when the token matches a row of a well-formed table and the database
accepts the write, `TrackEngagement` replaces that row and no other: the open count becomes
the 64-bit sum of the old count and 1, which is the old count plus exactly 1 unless the old
count is the largest 64-bit integer; the last-open and the update timestamp become `now`;
if the first-open timestamp is unset, the first-open timestamp, reader IP and reader client
are set from the request, else they are kept; every other field of the row (key, email,
names, IP, creation time, code, expiry, attempts, verification, dispatched flag, token) is
kept. When no row matches, the table is unchanged. -/
theorem TrackEngagement_frame (env : Env) (db : DB) (filename : String)
    (user : EarlyStartUser) (env0 : Env) (db0 : DB) (filename0 : String)
    (hwf : db.WF) (hr : env.dbReadErr = false) (hw : env.dbWriteErr = false)
    (hf : db.rows.find? (fun u => u.EngagementToken == TrimSuffix filename ".png") =
      some user)
    (hnone : db0.rows.find? (fun u => u.EngagementToken == TrimSuffix filename0 ".png") =
      none) :
    (user.ReadAt = none →
      (TrackEngagement env db filename).db =
        db.replace user
          { user with UpdatedAt := env.now, ReadCount := wrapInt (user.ReadCount + 1),
                      LastReadAt := some env.now, ReadAt := some env.now,
                      ReaderIP := env.clientIP, ReaderClient := env.userAgent }) ∧
    (user.ReadAt ≠ none →
      (TrackEngagement env db filename).db =
        db.replace user
          { user with UpdatedAt := env.now, ReadCount := wrapInt (user.ReadCount + 1),
                      LastReadAt := some env.now }) ∧
    (-9223372036854775808 ≤ user.ReadCount → user.ReadCount < 9223372036854775807 →
      wrapInt (user.ReadCount + 1) = user.ReadCount + 1) ∧
    (user.ReadCount = 9223372036854775807 →
      wrapInt (user.ReadCount + 1) = -9223372036854775808) ∧
    (TrackEngagement env0 db0 filename0).db = db0 := by
  have hu : user ∈ db.rows := List.mem_of_find?_eq_some hf
  have heq : (TrackEngagement env db filename).db =
      db.replace user (stamp env.now (markOpen user env user)) := by
    rw [TrackEngagement_eq]
    simp only [DB.First, hr, Bool.false_eq_true, if_false, hf]
    exact Updates_eq_replace hwf env hu _ hw
  refine ⟨?_, ?_, ?_, ?_, ?_⟩
  · intro h
    rw [heq]
    simp [stamp, markOpen, h]
  · intro h
    rw [heq]
    simp [stamp, markOpen, h]
  · intro h1 h2
    exact wrapInt_of_range _ (by omega) (by omega)
  · intro h
    rw [h]
    decide
  · rw [TrackEngagement_eq]
    unfold DB.First
    by_cases hr0 : env0.dbReadErr = true
    · simp [hr0]
    · simp [hr0, hnone]

/-- Witness for `TrackEngagement_frame`: the first open of the mail of `sampleUser`, and a
token that matches no row. -/
theorem TrackEngagement_frame_witness :
    (sampleUser.ReadAt = none →
      (TrackEngagement (sampleEnv 50) sampleDB "tok.png").db =
        sampleDB.replace sampleUser
          { sampleUser with UpdatedAt := (sampleEnv 50).now,
                            ReadCount := wrapInt (sampleUser.ReadCount + 1),
                            LastReadAt := some (sampleEnv 50).now,
                            ReadAt := some (sampleEnv 50).now,
                            ReaderIP := (sampleEnv 50).clientIP,
                            ReaderClient := (sampleEnv 50).userAgent }) ∧
    (sampleUser.ReadAt ≠ none →
      (TrackEngagement (sampleEnv 50) sampleDB "tok.png").db =
        sampleDB.replace sampleUser
          { sampleUser with UpdatedAt := (sampleEnv 50).now,
                            ReadCount := wrapInt (sampleUser.ReadCount + 1),
                            LastReadAt := some (sampleEnv 50).now }) ∧
    (-9223372036854775808 ≤ sampleUser.ReadCount →
      sampleUser.ReadCount < 9223372036854775807 →
      wrapInt (sampleUser.ReadCount + 1) = sampleUser.ReadCount + 1) ∧
    (sampleUser.ReadCount = 9223372036854775807 →
      wrapInt (sampleUser.ReadCount + 1) = -9223372036854775808) ∧
    (TrackEngagement (sampleEnv 60) sampleDB "none.png").db = sampleDB :=
  TrackEngagement_frame (sampleEnv 50) sampleDB "tok.png" sampleUser (sampleEnv 60) sampleDB
    "none.png" (by decide) (by decide) (by decide) (by decide) (by decide)

/-- C14: a failed send never fails `Signup`. For a valid request that passes the verified
and cooldown checks (random source and database working), whatever the email service and
the SMTP outcome, `Signup` answers with the same 200 code-sent message as when the send
succeeds and creates or updates the row with the new code; the dispatched flag of the row
is true exactly when `SendOTPEmail` returned no error, so it is false when the service is
absent, has no client (as built by `NewEmailService` without credentials) or the transport
fails. -/
theorem Signup_send_failure_tolerated (lib : Lib) (e e2 : EarlyStartController) (env : Env)
    (db : DB) (req : signupRequest) (otp tok : String) (smtp2 : Bool) (cfg : Config)
    (newClientErr : Bool)
    (hwf : db.WF) (hval : validSignup lib req = true)
    (hr : env.dbReadErr = false) (hw : env.dbWriteErr = false)
    (ho : generateOTP env.randOTP = Except.ok otp)
    (hk : GenerateEngagementToken env.randToken = Except.ok tok)
    (hcase : db.byEmail req.Email = none ∨
      ∃ existing t, db.byEmail req.Email = some existing ∧ existing.IsVerified = false ∧
        existing.OTPLastAttempt = some t ∧ 60 * second ≤ env.now - t) :
    (Signup lib e env db req).resp = messageJSON 200
      "If this email is valid, a verification code has been sent. Please check your email." ∧
    (Signup lib e2 { env with smtpErr := smtp2 } db req).resp = (Signup lib e env db req).resp ∧
    (∃ r, (Signup lib e env db req).db.byEmail req.Email = some r ∧ r.OTPHash = otp ∧
      r.EngagementToken = tok ∧
      (r.EmailSent = true ↔
        ∃ es, e.EmailService = some es ∧
          es.SendOTPEmail env req.Email otp tok = Except.ok ()) ∧
      ((e.EmailService = none ∨
          ∃ es, e.EmailService = some es ∧ (es.hasClient = false ∨ env.smtpErr = true)) →
        r.EmailSent = false)) ∧
    ((cfg.SMTPUsername = "" ∨ cfg.SMTPPassword = "") →
      NewEmailService cfg newClientErr = Except.ok { hasClient := false }) := by
  have hcase2 : db.byEmail req.Email = none ∨
      ∃ existing, db.byEmail req.Email = some existing ∧ existing.IsVerified = false ∧
        pastCooldown existing env.now := by
    rcases hcase with hn | ⟨ex, t, h2, h3, h4, h5⟩
    · exact Or.inl hn
    · exact Or.inr ⟨ex, h2, h3, Or.inr ⟨t, h4, minute_eq ▸ h5⟩⟩
  obtain ⟨hresp, _, _, r, hfr, _, h2, _, _, _, _, h7, h8, _⟩ :=
    Signup_issue_row lib e env db req otp tok hwf hval hr hw ho hk hcase2
  obtain ⟨hresp2, _⟩ :=
    Signup_issue_row lib e2 { env with smtpErr := smtp2 } db req otp tok hwf hval hr hw ho hk
      hcase2
  have hsent : (sendOutcome e env req.Email otp tok).getD false = true ↔
      ∃ es, e.EmailService = some es ∧
        es.SendOTPEmail env req.Email otp tok = Except.ok () := by
    unfold sendOutcome
    cases hs : e.EmailService with
    | none => simp
    | some es =>
      cases hres : es.SendOTPEmail env req.Email otp tok with
      | ok u => simp [hres]
      | error m => simp [hres]
  refine ⟨hresp, hresp2.trans hresp.symm, ⟨r, hfr, h2, h8, by rw [h7]; exact hsent, ?_⟩, ?_⟩
  · intro hfail
    rw [h7]
    unfold sendOutcome
    rcases hfail with hn | ⟨es, hs, hc | hc⟩
    · simp [hn]
    · simp [hs, EmailService.SendOTPEmail, EmailService.SendEmail, hc]
    · by_cases hcl : es.hasClient = true
      · simp [hs, EmailService.SendOTPEmail, EmailService.SendEmail, hc, hcl]
      · simp [hs, EmailService.SendOTPEmail, EmailService.SendEmail, hcl]
  · intro hcred
    unfold NewEmailService
    rcases hcred with h | h <;> simp [h]

/-- Witness for `Signup_send_failure_tolerated`: `a@x.com` signs up on the empty table
with the service built from `sampleConfig`, which has no client; compared with a
configured service. -/
theorem Signup_send_failure_tolerated_witness :
    (Signup sampleLib sampleCtlNoClient (sampleEnv 0) DB.empty ⟨"a@x.com", "", ""⟩).resp =
      messageJSON 200
        "If this email is valid, a verification code has been sent. Please check your email." ∧
    (Signup sampleLib sampleCtl { sampleEnv 0 with smtpErr := false } DB.empty
      ⟨"a@x.com", "", ""⟩).resp =
      (Signup sampleLib sampleCtlNoClient (sampleEnv 0) DB.empty ⟨"a@x.com", "", ""⟩).resp ∧
    (∃ r, (Signup sampleLib sampleCtlNoClient (sampleEnv 0) DB.empty
        ⟨"a@x.com", "", ""⟩).db.byEmail "a@x.com" = some r ∧ r.OTPHash = "AAAAAA" ∧
      r.EngagementToken = "AAAAAAAAAAAAAAAAAAAAAAAAAAAAAAAAAAAAAAAAAAA=" ∧
      (r.EmailSent = true ↔
        ∃ es, sampleCtlNoClient.EmailService = some es ∧
          es.SendOTPEmail (sampleEnv 0) "a@x.com" "AAAAAA"
            "AAAAAAAAAAAAAAAAAAAAAAAAAAAAAAAAAAAAAAAAAAA=" = Except.ok ()) ∧
      ((sampleCtlNoClient.EmailService = none ∨
          ∃ es, sampleCtlNoClient.EmailService = some es ∧
            (es.hasClient = false ∨ (sampleEnv 0).smtpErr = true)) →
        r.EmailSent = false)) ∧
    ((sampleConfig.SMTPUsername = "" ∨ sampleConfig.SMTPPassword = "") →
      NewEmailService sampleConfig false = Except.ok { hasClient := false }) :=
  Signup_send_failure_tolerated sampleLib sampleCtlNoClient sampleCtl (sampleEnv 0) DB.empty
    ⟨"a@x.com", "", ""⟩ "AAAAAA" "AAAAAAAAAAAAAAAAAAAAAAAAAAAAAAAAAAAAAAAAAAA=" false
    sampleConfig false (by decide) (by decide) (by decide) (by decide) rfl rfl
    (Or.inl (by decide))

/-- C15: `generateOTP` has no modulo bias. The alphabet has 32 symbols and 32 divides 256;
for each symbol exactly 256 / 32 = 8 of the byte values 0..255 select it; in `generateOTP`
itself, whatever the other five bytes are, exactly 8 of the 256 values of the byte at a
position give a chosen symbol at that position, so a uniform byte gives a uniform symbol;
every string of six symbols of the alphabet is the output for exactly 8 ^ 6 of the
256 ^ 6 inputs, hence for at least one. -/
theorem generateOTP_no_modulo_bias (s : String) (b : Fin 6 → Byte) (i : Fin 6) (c : Char)
    (hs : s.length = 6) (hmem : ∀ x ∈ s.data, x ∈ charset.data) (hc : c ∈ charset.data) :
    len charset = 32 ∧ 256 % len charset = 0 ∧ 256 / len charset = 8 ∧
    (Finset.univ.filter fun v : Byte =>
      charset.data.getD (v.val % len charset) 'A' = c).card = 256 / len charset ∧
    (Finset.univ.filter fun v : Byte =>
      symbolAt (generateOTP (some (Function.update b i v))) i = some c).card =
        256 / len charset ∧
    (Finset.univ.filter fun b1 : Fin 6 → Byte => generateOTP (some b1) = Except.ok s).card =
      8 ^ 6 ∧
    ∃ b1 : Fin 6 → Byte, generateOTP (some b1) = Except.ok s := by
  have hjoint := generateOTP_fiber_card s hs hmem
  have h8 : 256 / len charset = 8 := by decide
  have hpos : (Finset.univ.filter fun v : Byte =>
      symbolAt (generateOTP (some (Function.update b i v))) i = some c) =
      Finset.univ.filter fun v : Byte => charset.data.getD (v.val % len charset) 'A' = c := by
    ext v
    simp only [Finset.mem_filter, Finset.mem_univ, true_and]
    rw [symbolAt_generateOTP, Function.update_same, Option.some.injEq]
  refine ⟨by decide, by decide, h8, ?_, ?_, hjoint, ?_⟩
  · rw [h8]; exact charset_symbol_count c hc
  · rw [h8, hpos]; exact charset_symbol_count c hc
  · exact generateOTP_surjective s hs hmem

/-- Witness for `generateOTP_no_modulo_bias`: the code `AB3D9X`, the symbol `9` at the third
position, the other bytes zero. -/
theorem generateOTP_no_modulo_bias_witness :
    len charset = 32 ∧ 256 % len charset = 0 ∧ 256 / len charset = 8 ∧
    (Finset.univ.filter fun v : Byte =>
      charset.data.getD (v.val % len charset) 'A' = '9').card = 256 / len charset ∧
    (Finset.univ.filter fun v : Byte =>
      symbolAt (generateOTP (some (Function.update (fun _ => 0) 2 v))) 2 = some '9').card =
        256 / len charset ∧
    (Finset.univ.filter fun b1 : Fin 6 → Byte =>
      generateOTP (some b1) = Except.ok "AB3D9X").card = 8 ^ 6 ∧
    ∃ b1 : Fin 6 → Byte, generateOTP (some b1) = Except.ok "AB3D9X" :=
  generateOTP_no_modulo_bias "AB3D9X" (fun _ => 0) 2 '9' (by decide) (by decide) (by decide)

/-- C16: a mismatched `VerifyOTP` restarts the resend cooldown. For an unverified,
unexpired row with fewer than five failed attempts, a well-formed wrong code at time `t`
(the write accepted) is answered with the invalid-code error and sets the last-attempt
timestamp to `t`, whatever it was before, so a valid `Signup` for that email at any time
before `t + 60 s` is rate-limited and changes nothing; a `VerifyOTP` that ends in the
expired, too-many-attempts or already-verified response leaves the table, hence the
last-attempt timestamp and the attempt counter, unchanged. -/
theorem VerifyOTP_mismatch_restarts_cooldown (lib : Lib) (e : EarlyStartController)
    (env : Env) (db : DB) (req : verifyOTPRequest) (user : EarlyStartUser) (tx : Time)
    (envS : Env) (sreq : signupRequest) (env0 : Env) (db0 : DB) (req0 : verifyOTPRequest)
    (hb : bindVerifyOTP lib req = true) (hl : len (ToUpper lib (TrimSpace req.OTP)) = 6)
    (hr : env.dbReadErr = false) (hw : env.dbWriteErr = false)
    (hf : db.byEmail req.Email = some user)
    (hv : user.IsVerified = false) (hx : user.OTPExpiresAt = some tx) (ht : env.now ≤ tx)
    (ha : user.OTPAttempts < 5)
    (hm : ToUpper lib (TrimSpace req.OTP) ≠ user.OTPHash)
    (hse : sreq.Email = req.Email) (hsv : validSignup lib sreq = true)
    (hsr : envS.dbReadErr = false) (hst : envS.now < env.now + 60 * second)
    (h0 : (VerifyOTP lib env0 db0 req0).resp =
        errorJSON 400 "Verification code has expired. Please request a new one." ∨
      (VerifyOTP lib env0 db0 req0).resp =
        errorJSON 429 "Too many failed attempts. Please request a new code." ∨
      (VerifyOTP lib env0 db0 req0).resp =
        ⟨200, Body.json [("message", Value.str "Email already verified"),
                         ("isVerified", Value.bool true)]⟩) :
    (VerifyOTP lib env db req).resp = errorJSON 400 "Invalid verification code" ∧
    ((VerifyOTP lib env db req).db.byEmail req.Email).map
      (fun u => (u.OTPLastAttempt, u.OTPAttempts)) =
        some (some env.now, user.OTPAttempts + 1) ∧
    Signup lib e envS (VerifyOTP lib env db req).db sreq =
      ⟨(VerifyOTP lib env db req).db,
        errorJSON 429 "Please wait before requesting a new code", []⟩ ∧
    (VerifyOTP lib env0 db0 req0).db = db0 := by
  have hstep := VerifyOTP_mismatch lib env db req user tx hb hl hr hf hv hx ht ha hm
  have hf1 : (VerifyOTP lib env db req).db.byEmail req.Email =
      some (stamp env.now (markFailed user env.now user)) := by
    rw [hstep]
    show (db.Updates env user.ID (markFailed user env.now)).1.byEmail req.Email = _
    rw [byEmail_Updates db env user.ID (markFailed user env.now) hw (fun _ => rfl), hf]
    simp
  refine ⟨by rw [hstep]; rfl, by rw [hf1]; rfl, ?_, VerifyOTP_no_write lib env0 db0 req0 h0⟩
  have hc : envS.now - env.now < 1 * minute := by
    rw [minute_eq]
    exact sub_lt_iff_lt_add'.mpr hst
  exact Signup_cooldown lib e envS _ sreq (stamp env.now (markFailed user env.now user))
    env.now hsv hsr (hse ▸ hf1) hv rfl hc

/-- Witness for `VerifyOTP_mismatch_restarts_cooldown`: `sampleUser` signed up at time 0,
submits the wrong code `ZZZZZZ` at 100 seconds and asks for a new code at 130 seconds; the
expired case is the stored code submitted one nanosecond after the expiry. -/
theorem VerifyOTP_mismatch_restarts_cooldown_witness :
    (VerifyOTP sampleLib (sampleEnv 100000000000) sampleDB ⟨"a@x.com", "ZZZZZZ"⟩).resp =
      errorJSON 400 "Invalid verification code" ∧
    ((VerifyOTP sampleLib (sampleEnv 100000000000) sampleDB
      ⟨"a@x.com", "ZZZZZZ"⟩).db.byEmail "a@x.com").map
      (fun u => (u.OTPLastAttempt, u.OTPAttempts)) =
        some (some (sampleEnv 100000000000).now, sampleUser.OTPAttempts + 1) ∧
    Signup sampleLib sampleCtl (sampleEnv 130000000000)
        (VerifyOTP sampleLib (sampleEnv 100000000000) sampleDB ⟨"a@x.com", "ZZZZZZ"⟩).db
        ⟨"a@x.com", "", ""⟩ =
      ⟨(VerifyOTP sampleLib (sampleEnv 100000000000) sampleDB ⟨"a@x.com", "ZZZZZZ"⟩).db,
        errorJSON 429 "Please wait before requesting a new code", []⟩ ∧
    (VerifyOTP sampleLib (sampleEnv 900000000001) sampleDB ⟨"a@x.com", "AB3D9X"⟩).db =
      sampleDB :=
  VerifyOTP_mismatch_restarts_cooldown sampleLib sampleCtl (sampleEnv 100000000000) sampleDB
    ⟨"a@x.com", "ZZZZZZ"⟩ sampleUser 900000000000 (sampleEnv 130000000000)
    ⟨"a@x.com", "", ""⟩ (sampleEnv 900000000001) sampleDB ⟨"a@x.com", "AB3D9X"⟩
    (by decide) (by decide) (by decide) (by decide) (by decide) (by decide) (by decide)
    (by decide) (by decide) (by decide) (by decide) (by decide) (by decide) (by decide)
    (Or.inl (by decide))

end BuildBoard
